import Mathlib

/-!
Shallow embedding of `src/sagemaker/jumpstart/factory/model.py`, the JumpStart
model factory: the `get_init_kwargs` / `get_deploy_kwargs` / `get_register_kwargs`
pipelines, their per-field default-filling helpers, and `get_default_predictor`.

External collaborators (catalog lookups, URI resolution, name generation, the
default session) are modelled as an explicit `Env` record of total lookup
functions.  Every lookup receives the same arguments, in the same order, that
the source passes; constant arguments fixed at every call site
(`scope=JumpStartScriptScope.INFERENCE`, `framework=None`,
`include_aws_sdk_env_vars=False`) are folded into the collaborator and omitted
from its Lean signature.  Python's `x or y` default-filling idiom is modelled by
the `py_or_*` helpers below, faithful to Python truthiness (`None`, `""`, `0`,
`[]` and `{}` are falsy; any object such as a session, a resource-requirements
bundle or a class is truthy).  Logging calls (`JUMPSTART_LOGGER`) are omitted:
they do not affect the returned record.  Python dictionaries are modelled as
insertion-ordered association lists with first-match lookup.
-/

/-- Session settings carried by the SageMaker session object; this module reads
only the `include_jumpstart_tags` policy flag. -/
structure SessionSettings where
  include_jumpstart_tags : Bool
deriving DecidableEq, Repr

/-- Stand-in for `sagemaker.session.Session`: the factory reads only the
tag-policy flag and, through `resolve_model_sagemaker_config_field`, the
sagemaker-config key/value store. -/
structure Session where
  settings : SessionSettings
  sagemaker_config : List (String × String)
deriving DecidableEq, Repr

/-- The nested value of the structured `{"S3DataSource": {...}}` descriptor
built by `_add_model_data_to_kwargs`. -/
structure S3DataSourceSpec where
  s3_uri : String
  s3_data_type : String
  compression_type : String
deriving DecidableEq, Repr

/-- `model_data` is `Union[str, dict]` in the source: either a plain URI string
or the structured `S3DataSource` descriptor dictionary. -/
inductive ModelData where
  | str (s : String)
  | s3_data_source (d : S3DataSourceSpec)
deriving DecidableEq, Repr

/-- Opaque stand-in for `ResourceRequirements` objects; the factory never looks
inside them, it only passes them around. -/
structure ResourceRequirements where
  raw : String
deriving DecidableEq, Repr

/-- Mirror of `sagemaker.enums.EndpointType` as used by this module. -/
inductive EndpointType where
  | model_based
  | inference_component_based
deriving DecidableEq, Repr

/-- The exact runtime class of a predictor object: `type(predictor)` in the
source.  `get_default_predictor` accepts only the base `Predictor` class. -/
inductive PredictorClass where
  | predictor
  | subclass (name : String)
deriving DecidableEq, Repr

/-- Python exact class name, used in the `get_default_predictor` error text. -/
def PredictorClass.class_name : PredictorClass → String
  | .predictor => "Predictor"
  | .subclass n => n

/-- Python `a or b` where `a` is an optional string and `b` a string: `None`
and `""` are falsy, so both fall through to `b`. -/
def py_or_str (a : Option String) (b : String) : String :=
  match a with
  | none => b
  | some s => if s = "" then b else s

/-- Python `a or b` where both sides are optional strings. -/
def py_or_opt_str (a b : Option String) : Option String :=
  match a with
  | none => b
  | some s => if s = "" then b else some s

/-- Python `a or b` for an optional boolean: `None` and `False` are falsy. -/
def py_or_bool (a : Option Bool) (b : Bool) : Bool :=
  match a with
  | none => b
  | some x => x || b

/-- Python `a or b` for an optional integer: `None` and `0` are falsy. -/
def py_or_nat (a : Option Nat) (b : Nat) : Nat :=
  match a with
  | none => b
  | some n => if n = 0 then b else n

/-- Python `a or b` for an optional list: `None` and `[]` are falsy. -/
def py_or_list {α : Type} (a : Option (List α)) (b : List α) : List α :=
  match a with
  | none => b
  | some l => if l.isEmpty then b else l

/-- Python `a or b` where `a` is the optional `model_data` value and `b` is the
URI string returned by `model_uris.retrieve`: `None` and the empty string are
falsy; the structured descriptor is a non-empty dict, hence truthy. -/
def py_or_model_data (a : Option ModelData) (b : String) : ModelData :=
  match a with
  | none => .str b
  | some (.str s) => if s = "" then .str b else .str s
  | some (.s3_data_source d) => .s3_data_source d

/-- Python `str.startswith`, embedded over the character list of the string. -/
def str_startsWith (s pre : String) : Bool :=
  List.isPrefixOf pre.data s.data

/-- Python `str.endswith`, embedded over the character list of the string. -/
def str_endsWith (s suf : String) : Bool :=
  List.isSuffixOf suf.data s.data

/-- First-match lookup in a Python-dict-as-association-list. -/
def dict_lookup (d : List (String × String)) (key : String) : Option String :=
  match d with
  | [] => none
  | (k, v) :: rest => if key = k then some v else dict_lookup rest key

/-- Modelled from the spec: `update_dict_if_key_not_present` (imported from
`sagemaker.jumpstart.utils`, not part of this file) inserts `key -> value` into
the dictionary only when `key` is absent; Python dict insertion appends to the
iteration order. -/
def update_dict_if_key_not_present (d : List (String × String)) (key value : String) :
    List (String × String) :=
  if (dict_lookup d key).isSome then d else d ++ [(key, value)]

/-- Modelled from the spec: `resolve_model_sagemaker_config_field` (imported
from `sagemaker.jumpstart.utils`, not part of this file) implements the
precedence rule in which the explicit user value always wins: a non-None
`field_val` is returned unchanged; otherwise the session sagemaker-config value
for the field; otherwise `default_value`. -/
def resolve_model_sagemaker_config_field (field_name : String) (field_val : Option String)
    (session : Option Session) (default_value : Option String) : Option String :=
  match field_val with
  | some v => some v
  | none =>
    match session with
    | none => default_value
    | some s =>
      match dict_lookup s.sagemaker_config field_name with
      | some c => some c
      | none => default_value

/-- Modelled from the spec: `add_jumpstart_model_id_version_tags` (imported
from `sagemaker.jumpstart.utils`, not part of this file) appends the
catalog-identifying model-id and model-version tags to the tag list. -/
def add_jumpstart_model_id_version_tags (tags : Option (List (String × String)))
    (model_id full_model_version : String) : List (String × String) :=
  tags.getD [] ++
    [("sagemaker-sdk:jumpstart-model-id", model_id),
     ("sagemaker-sdk:jumpstart-model-version", full_model_version)]

/-- Mirror of `JumpStartModelInitKwargs`: the mutable parameter record built by
`get_init_kwargs`.  Opaque collaborator-owned values (image config, git config,
VPC config, ...) are modelled by simple concrete stand-ins. -/
structure JumpStartModelInitKwargs where
  model_id : String
  model_version : Option String := none
  instance_type : Option String := none
  region : Option String := none
  image_uri : Option String := none
  model_data : Option ModelData := none
  source_dir : Option String := none
  entry_point : Option String := none
  env : Option (List (String × String)) := none
  predictor_cls : Option PredictorClass := none
  role : Option String := none
  name : Option String := none
  vpc_config : Option (List (String × List String)) := none
  sagemaker_session : Option Session := none
  enable_network_isolation : Option Bool := none
  model_kms_key : Option String := none
  image_config : Option (List (String × String)) := none
  code_location : Option String := none
  container_log_level : Option Nat := none
  dependencies : Option (List String) := none
  git_config : Option (List (String × String)) := none
  tolerate_deprecated_model : Option Bool := none
  tolerate_vulnerable_model : Option Bool := none
  model_package_arn : Option String := none
  training_instance_type : Option String := none
  resources : Option ResourceRequirements := none
deriving DecidableEq, Repr

/-- Mirror of `JumpStartModelDeployKwargs`: the mutable parameter record built
by `get_deploy_kwargs`.  `endpoint_type`, `managed_instance_scaling` and
`training_instance_type` are not set by the constructor call in the source and
therefore start out unset. -/
structure JumpStartModelDeployKwargs where
  model_id : String
  model_version : Option String := none
  region : Option String := none
  initial_instance_count : Option Nat := none
  instance_type : Option String := none
  serializer : Option String := none
  deserializer : Option String := none
  accelerator_type : Option String := none
  endpoint_name : Option String := none
  tags : Option (List (String × String)) := none
  kms_key : Option String := none
  wait : Option Bool := none
  data_capture_config : Option String := none
  async_inference_config : Option String := none
  serverless_inference_config : Option String := none
  volume_size : Option Nat := none
  model_data_download_timeout : Option Nat := none
  container_startup_health_check_timeout : Option Nat := none
  inference_recommendation_id : Option String := none
  explainer_config : Option String := none
  tolerate_deprecated_model : Option Bool := none
  tolerate_vulnerable_model : Option Bool := none
  sagemaker_session : Option Session := none
  accept_eula : Option Bool := none
  endpoint_logging : Option Bool := none
  resources : Option ResourceRequirements := none
  managed_instance_scaling : Option String := none
  endpoint_type : Option EndpointType := none
  training_instance_type : Option String := none
deriving DecidableEq, Repr

/-- Mirror of `JumpStartModelRegisterKwargs`: the parameter record built by
`get_register_kwargs`.  Collaborator-owned objects (model metrics, metadata
properties, drift-check baselines, ...) are opaque string stand-ins. -/
structure JumpStartModelRegisterKwargs where
  model_id : String
  model_version : Option String := none
  region : Option String := none
  tolerate_deprecated_model : Option Bool := none
  tolerate_vulnerable_model : Option Bool := none
  sagemaker_session : Option Session := none
  content_types : Option (List String) := none
  response_types : Option (List String) := none
  inference_instances : Option (List String) := none
  transform_instances : Option (List String) := none
  model_package_group_name : Option String := none
  image_uri : Option String := none
  model_metrics : Option String := none
  metadata_properties : Option String := none
  approval_status : Option String := none
  description : Option String := none
  drift_check_baselines : Option String := none
  customer_metadata_properties : Option (List (String × String)) := none
  validation_specification : Option String := none
  domain : Option String := none
  task : Option String := none
  sample_payload_url : Option String := none
  framework : Option String := none
  framework_version : Option String := none
  nearest_model_name : Option String := none
  data_input_configuration : Option String := none
  skip_model_validation : Option String := none
deriving DecidableEq, Repr

/-- One key/value pair of the catalog-provided extra init-kwargs bundle
returned by `_retrieve_model_init_kwargs`.  The source applies the bundle by
reflection (`if getattr(kwargs, key) is None: setattr(kwargs, key, ...)` for any
key naming an attribute of the record); each representable key is a constructor
carrying a value of the corresponding field's type, covering the
`Model.__init__` parameters a catalog bundle can target. -/
inductive InitKwargEntry where
  | image_uri (v : String)
  | model_data (v : ModelData)
  | role (v : String)
  | env (v : List (String × String))
  | name (v : String)
  | vpc_config (v : List (String × List String))
  | enable_network_isolation (v : Bool)
  | model_kms_key (v : String)
  | image_config (v : List (String × String))
  | source_dir (v : String)
  | code_location (v : String)
  | entry_point (v : String)
  | container_log_level (v : Nat)
  | dependencies (v : List String)
  | git_config (v : List (String × String))
  | resources (v : ResourceRequirements)
deriving DecidableEq, Repr

/-- The field names targetable by the extra init-kwargs bundle. -/
inductive InitField where
  | image_uri
  | model_data
  | role
  | env
  | name
  | vpc_config
  | enable_network_isolation
  | model_kms_key
  | image_config
  | source_dir
  | code_location
  | entry_point
  | container_log_level
  | dependencies
  | git_config
  | resources
deriving DecidableEq, Repr

/-- One key/value pair of the catalog-provided deploy-kwargs bundle returned by
`_retrieve_model_deploy_kwargs`, applied by the same reflection pattern; the
constructors cover the `Model.deploy` parameters a catalog bundle can target. -/
inductive DeployKwargEntry where
  | accelerator_type (v : String)
  | endpoint_name (v : String)
  | tags (v : List (String × String))
  | kms_key (v : String)
  | wait (v : Bool)
  | volume_size (v : Nat)
  | model_data_download_timeout (v : Nat)
  | container_startup_health_check_timeout (v : Nat)
  | endpoint_logging (v : Bool)
  | accept_eula (v : Bool)
  | resources (v : ResourceRequirements)
  | managed_instance_scaling (v : String)
  | endpoint_type (v : EndpointType)
deriving DecidableEq, Repr

/-- The field names targetable by the deploy-kwargs bundle. -/
inductive DeployField where
  | accelerator_type
  | endpoint_name
  | tags
  | kms_key
  | wait
  | volume_size
  | model_data_download_timeout
  | container_startup_health_check_timeout
  | endpoint_logging
  | accept_eula
  | resources
  | managed_instance_scaling
  | endpoint_type
deriving DecidableEq, Repr

/-- Heterogeneous field values, used to state per-field facts about the
reflection-based merges uniformly. -/
inductive FieldVal where
  | str (v : String)
  | bool (v : Bool)
  | nat (v : Nat)
  | str_list (v : List String)
  | dict (v : List (String × String))
  | vpc (v : List (String × List String))
  | model_data (v : ModelData)
  | resources (v : ResourceRequirements)
  | endpoint_type (v : EndpointType)
deriving DecidableEq, Repr

/-- The field a given init-bundle entry targets. -/
def init_entry_field : InitKwargEntry → InitField
  | .image_uri _ => .image_uri
  | .model_data _ => .model_data
  | .role _ => .role
  | .env _ => .env
  | .name _ => .name
  | .vpc_config _ => .vpc_config
  | .enable_network_isolation _ => .enable_network_isolation
  | .model_kms_key _ => .model_kms_key
  | .image_config _ => .image_config
  | .source_dir _ => .source_dir
  | .code_location _ => .code_location
  | .entry_point _ => .entry_point
  | .container_log_level _ => .container_log_level
  | .dependencies _ => .dependencies
  | .git_config _ => .git_config
  | .resources _ => .resources

/-- The value a given init-bundle entry carries. -/
def init_entry_val : InitKwargEntry → FieldVal
  | .image_uri v => .str v
  | .model_data v => .model_data v
  | .role v => .str v
  | .env v => .dict v
  | .name v => .str v
  | .vpc_config v => .vpc v
  | .enable_network_isolation v => .bool v
  | .model_kms_key v => .str v
  | .image_config v => .dict v
  | .source_dir v => .str v
  | .code_location v => .str v
  | .entry_point v => .str v
  | .container_log_level v => .nat v
  | .dependencies v => .str_list v
  | .git_config v => .dict v
  | .resources v => .resources v

/-- Current value of a bundle-targetable field of the init record
(`getattr(kwargs, key)` in the source). -/
def init_get (k : JumpStartModelInitKwargs) : InitField → Option FieldVal
  | .image_uri => k.image_uri.map .str
  | .model_data => k.model_data.map .model_data
  | .role => k.role.map .str
  | .env => k.env.map .dict
  | .name => k.name.map .str
  | .vpc_config => k.vpc_config.map .vpc
  | .enable_network_isolation => k.enable_network_isolation.map .bool
  | .model_kms_key => k.model_kms_key.map .str
  | .image_config => k.image_config.map .dict
  | .source_dir => k.source_dir.map .str
  | .code_location => k.code_location.map .str
  | .entry_point => k.entry_point.map .str
  | .container_log_level => k.container_log_level.map .nat
  | .dependencies => k.dependencies.map .str_list
  | .git_config => k.git_config.map .dict
  | .resources => k.resources.map .resources

/-- One reflection step of `_add_extra_model_kwargs`:
`if getattr(kwargs, key) is None: setattr(kwargs, key, value)`.  The source
additionally routes `value` through `resolve_model_sagemaker_config_field`,
which returns it unchanged because a bundle value is never `None` (the explicit
value always wins under the precedence rule). -/
def set_init_field_if_none (k : JumpStartModelInitKwargs) (e : InitKwargEntry) :
    JumpStartModelInitKwargs :=
  match e with
  | .image_uri v => if k.image_uri = none then { k with image_uri := some v } else k
  | .model_data v => if k.model_data = none then { k with model_data := some v } else k
  | .role v => if k.role = none then { k with role := some v } else k
  | .env v => if k.env = none then { k with env := some v } else k
  | .name v => if k.name = none then { k with name := some v } else k
  | .vpc_config v => if k.vpc_config = none then { k with vpc_config := some v } else k
  | .enable_network_isolation v =>
    if k.enable_network_isolation = none then { k with enable_network_isolation := some v } else k
  | .model_kms_key v => if k.model_kms_key = none then { k with model_kms_key := some v } else k
  | .image_config v => if k.image_config = none then { k with image_config := some v } else k
  | .source_dir v => if k.source_dir = none then { k with source_dir := some v } else k
  | .code_location v => if k.code_location = none then { k with code_location := some v } else k
  | .entry_point v => if k.entry_point = none then { k with entry_point := some v } else k
  | .container_log_level v =>
    if k.container_log_level = none then { k with container_log_level := some v } else k
  | .dependencies v => if k.dependencies = none then { k with dependencies := some v } else k
  | .git_config v => if k.git_config = none then { k with git_config := some v } else k
  | .resources v => if k.resources = none then { k with resources := some v } else k

/-- The field a given deploy-bundle entry targets. -/
def deploy_entry_field : DeployKwargEntry → DeployField
  | .accelerator_type _ => .accelerator_type
  | .endpoint_name _ => .endpoint_name
  | .tags _ => .tags
  | .kms_key _ => .kms_key
  | .wait _ => .wait
  | .volume_size _ => .volume_size
  | .model_data_download_timeout _ => .model_data_download_timeout
  | .container_startup_health_check_timeout _ => .container_startup_health_check_timeout
  | .endpoint_logging _ => .endpoint_logging
  | .accept_eula _ => .accept_eula
  | .resources _ => .resources
  | .managed_instance_scaling _ => .managed_instance_scaling
  | .endpoint_type _ => .endpoint_type

/-- The value a given deploy-bundle entry carries. -/
def deploy_entry_val : DeployKwargEntry → FieldVal
  | .accelerator_type v => .str v
  | .endpoint_name v => .str v
  | .tags v => .dict v
  | .kms_key v => .str v
  | .wait v => .bool v
  | .volume_size v => .nat v
  | .model_data_download_timeout v => .nat v
  | .container_startup_health_check_timeout v => .nat v
  | .endpoint_logging v => .bool v
  | .accept_eula v => .bool v
  | .resources v => .resources v
  | .managed_instance_scaling v => .str v
  | .endpoint_type v => .endpoint_type v

/-- Current value of a bundle-targetable field of the deploy record. -/
def deploy_get (k : JumpStartModelDeployKwargs) : DeployField → Option FieldVal
  | .accelerator_type => k.accelerator_type.map .str
  | .endpoint_name => k.endpoint_name.map .str
  | .tags => k.tags.map .dict
  | .kms_key => k.kms_key.map .str
  | .wait => k.wait.map .bool
  | .volume_size => k.volume_size.map .nat
  | .model_data_download_timeout => k.model_data_download_timeout.map .nat
  | .container_startup_health_check_timeout =>
    k.container_startup_health_check_timeout.map .nat
  | .endpoint_logging => k.endpoint_logging.map .bool
  | .accept_eula => k.accept_eula.map .bool
  | .resources => k.resources.map .resources
  | .managed_instance_scaling => k.managed_instance_scaling.map .str
  | .endpoint_type => k.endpoint_type.map .endpoint_type

/-- One reflection step of `_add_deploy_extra_kwargs`:
`if getattr(kwargs, key) is None: setattr(kwargs, key, value)`. -/
def set_deploy_field_if_none (k : JumpStartModelDeployKwargs) (e : DeployKwargEntry) :
    JumpStartModelDeployKwargs :=
  match e with
  | .accelerator_type v =>
    if k.accelerator_type = none then { k with accelerator_type := some v } else k
  | .endpoint_name v => if k.endpoint_name = none then { k with endpoint_name := some v } else k
  | .tags v => if k.tags = none then { k with tags := some v } else k
  | .kms_key v => if k.kms_key = none then { k with kms_key := some v } else k
  | .wait v => if k.wait = none then { k with wait := some v } else k
  | .volume_size v => if k.volume_size = none then { k with volume_size := some v } else k
  | .model_data_download_timeout v =>
    if k.model_data_download_timeout = none then
      { k with model_data_download_timeout := some v } else k
  | .container_startup_health_check_timeout v =>
    if k.container_startup_health_check_timeout = none then
      { k with container_startup_health_check_timeout := some v } else k
  | .endpoint_logging v =>
    if k.endpoint_logging = none then { k with endpoint_logging := some v } else k
  | .accept_eula v => if k.accept_eula = none then { k with accept_eula := some v } else k
  | .resources v => if k.resources = none then { k with resources := some v } else k
  | .managed_instance_scaling v =>
    if k.managed_instance_scaling = none then
      { k with managed_instance_scaling := some v } else k
  | .endpoint_type v => if k.endpoint_type = none then { k with endpoint_type := some v } else k

/-- The external collaborators consumed by the factory, as total lookup
functions.  Argument order mirrors the keyword arguments at each call site of
the source; optional record fields are passed through unchanged, so the
signatures take `Option`-typed arguments where the record stores options. -/
structure Env where
  /-- `JUMPSTART_DEFAULT_REGION_NAME` from `sagemaker.jumpstart.constants`. -/
  default_region_name : String
  /-- `DEFAULT_JUMPSTART_SAGEMAKER_SESSION` from `sagemaker.jumpstart.constants`. -/
  default_sagemaker_session : Session
  /-- `INFERENCE_ENTRY_POINT_SCRIPT_NAME` from `sagemaker.jumpstart.constants`. -/
  inference_entry_point_script_name : String
  /-- `instance_types.retrieve_default` with arguments region, model_id,
  model_version, tolerate_deprecated_model, tolerate_vulnerable_model,
  sagemaker_session, training_instance_type. -/
  instance_types_retrieve_default :
    Option String → String → Option String → Option Bool → Option Bool →
    Option Session → Option String → String
  /-- `image_uris.retrieve` with arguments region, model_id, model_version,
  instance_type, tolerate_deprecated_model, tolerate_vulnerable_model,
  sagemaker_session. -/
  image_uris_retrieve :
    Option String → String → Option String → Option String → Option Bool → Option Bool →
    Option Session → String
  /-- `model_uris.retrieve` with arguments model_id, model_version, region,
  tolerate_deprecated_model, tolerate_vulnerable_model, sagemaker_session,
  instance_type. -/
  model_uris_retrieve :
    String → Option String → Option String → Option Bool → Option Bool →
    Option Session → Option String → String
  /-- `script_uris.retrieve` with arguments model_id, model_version, region,
  tolerate_deprecated_model, tolerate_vulnerable_model, sagemaker_session. -/
  script_uris_retrieve :
    String → Option String → Option String → Option Bool → Option Bool →
    Option Session → String
  /-- `_model_supports_inference_script_uri` with arguments model_id,
  model_version, region, tolerate_deprecated_model, tolerate_vulnerable_model,
  sagemaker_session. -/
  model_supports_inference_script_uri :
    String → Option String → Option String → Option Bool → Option Bool →
    Option Session → Bool
  /-- `environment_variables.retrieve_default` with arguments model_id,
  model_version, region, tolerate_deprecated_model, tolerate_vulnerable_model,
  sagemaker_session, instance_type. -/
  environment_variables_retrieve_default :
    String → Option String → Option String → Option Bool → Option Bool →
    Option Session → Option String → List (String × String)
  /-- `_retrieve_model_package_arn` with arguments model_id, model_version,
  instance_type, region, tolerate_deprecated_model, tolerate_vulnerable_model,
  sagemaker_session; it may return `None`. -/
  retrieve_model_package_arn :
    String → Option String → Option String → Option String → Option Bool → Option Bool →
    Option Session → Option String
  /-- `_retrieve_model_init_kwargs` with arguments model_id, model_version,
  region, tolerate_deprecated_model, tolerate_vulnerable_model,
  sagemaker_session. -/
  retrieve_model_init_kwargs :
    String → Option String → Option String → Option Bool → Option Bool →
    Option Session → List InitKwargEntry
  /-- `_retrieve_model_deploy_kwargs` with arguments model_id, model_version,
  instance_type, region, tolerate_deprecated_model, tolerate_vulnerable_model,
  sagemaker_session. -/
  retrieve_model_deploy_kwargs :
    String → Option String → Option String → Option String → Option Bool → Option Bool →
    Option Session → List DeployKwargEntry
  /-- `_retrieve_resource_name_base` with arguments model_id, model_version,
  region, tolerate_deprecated_model, tolerate_vulnerable_model,
  sagemaker_session; it may return `None`. -/
  retrieve_resource_name_base :
    String → Option String → Option String → Option Bool → Option Bool →
    Option Session → Option String
  /-- `sagemaker.utils.name_from_base`. -/
  name_from_base : String → String
  /-- `resource_requirements.retrieve_default` with arguments region, model_id,
  model_version, tolerate_deprecated_model, tolerate_vulnerable_model,
  sagemaker_session. -/
  resource_requirements_retrieve_default :
    Option String → String → Option String → Option Bool → Option Bool →
    Option Session → ResourceRequirements
  /-- The `.version` of `verify_model_region_and_return_specs` with arguments
  model_id, version, region, tolerate_vulnerable_model,
  tolerate_deprecated_model, sagemaker_session. -/
  verify_specs_version :
    String → Option String → Option String → Option Bool → Option Bool →
    Option Session → String
  /-- `serializers.retrieve_default` with arguments model_id, model_version,
  region, tolerate_deprecated_model, tolerate_vulnerable_model,
  sagemaker_session. -/
  serializers_retrieve_default :
    String → String → String → Bool → Bool → Session → String
  /-- `deserializers.retrieve_default`, same arguments. -/
  deserializers_retrieve_default :
    String → String → String → Bool → Bool → Session → String
  /-- `accept_types.retrieve_default`, same arguments. -/
  accept_types_retrieve_default :
    String → String → String → Bool → Bool → Session → String
  /-- `content_types.retrieve_default`, same arguments. -/
  content_types_retrieve_default :
    String → String → String → Bool → Bool → Session → String
  /-- `.predictor_specs.supported_content_types` of
  `verify_model_region_and_return_specs` with arguments model_id, version,
  region, sagemaker_session, tolerate_deprecated_model,
  tolerate_vulnerable_model. -/
  supported_content_types :
    String → Option String → Option String → Option Session → Option Bool → Option Bool →
    List String
  /-- `.predictor_specs.supported_accept_types` of the same specs object. -/
  supported_accept_types :
    String → Option String → Option String → Option Session → Option Bool → Option Bool →
    List String

/-- `_add_region_to_kwargs`:
`kwargs.region = kwargs.region or JUMPSTART_DEFAULT_REGION_NAME`. -/
def _add_region_to_kwargs (E : Env) (k : JumpStartModelInitKwargs) : JumpStartModelInitKwargs :=
  { k with region := some (py_or_str k.region E.default_region_name) }

/-- `_add_sagemaker_session_to_kwargs` on the init record:
`kwargs.sagemaker_session = kwargs.sagemaker_session or DEFAULT_JUMPSTART_SAGEMAKER_SESSION`
(a session object is always truthy). -/
def _add_sagemaker_session_to_kwargs (E : Env) (k : JumpStartModelInitKwargs) :
    JumpStartModelInitKwargs :=
  { k with sagemaker_session := some (k.sagemaker_session.getD E.default_sagemaker_session) }

/-- `_add_sagemaker_session_to_kwargs` on the deploy record; the source shares
one function across both record types, the embedding duplicates it per type. -/
def _add_sagemaker_session_to_deploy_kwargs (E : Env) (k : JumpStartModelDeployKwargs) :
    JumpStartModelDeployKwargs :=
  { k with sagemaker_session := some (k.sagemaker_session.getD E.default_sagemaker_session) }

/-- `_add_role_to_kwargs`: resolves the role through
`resolve_model_sagemaker_config_field` with `default_value=kwargs.role`. -/
def _add_role_to_kwargs (k : JumpStartModelInitKwargs) : JumpStartModelInitKwargs :=
  { k with role := resolve_model_sagemaker_config_field "role" k.role k.sagemaker_session k.role }

/-- `_add_model_version_to_kwargs` on the init record:
`kwargs.model_version = kwargs.model_version or "*"`. -/
def _add_model_version_to_kwargs (k : JumpStartModelInitKwargs) : JumpStartModelInitKwargs :=
  { k with model_version := some (py_or_str k.model_version "*") }

/-- `_add_model_version_to_kwargs` on the deploy record. -/
def _add_model_version_to_deploy_kwargs (k : JumpStartModelDeployKwargs) :
    JumpStartModelDeployKwargs :=
  { k with model_version := some (py_or_str k.model_version "*") }

/-- `_add_vulnerable_and_deprecated_status_to_kwargs`:
`kwargs.tolerate_deprecated_model = kwargs.tolerate_deprecated_model or False`,
and likewise for the vulnerability flag. -/
def _add_vulnerable_and_deprecated_status_to_kwargs (k : JumpStartModelInitKwargs) :
    JumpStartModelInitKwargs :=
  { k with
    tolerate_deprecated_model := some (py_or_bool k.tolerate_deprecated_model false)
    tolerate_vulnerable_model := some (py_or_bool k.tolerate_vulnerable_model false) }

/-- `_add_instance_type_to_kwargs` on the init record:
`kwargs.instance_type = kwargs.instance_type or instance_types.retrieve_default(...)`.
The `disable_instance_type_logging` parameter only suppresses a log line and is
omitted. -/
def _add_instance_type_to_kwargs (E : Env) (k : JumpStartModelInitKwargs) :
    JumpStartModelInitKwargs :=
  { k with instance_type := some (py_or_str k.instance_type
      (E.instance_types_retrieve_default k.region k.model_id k.model_version
        k.tolerate_deprecated_model k.tolerate_vulnerable_model k.sagemaker_session
        k.training_instance_type)) }

/-- `_add_instance_type_to_kwargs` on the deploy record. -/
def _add_instance_type_to_deploy_kwargs (E : Env) (k : JumpStartModelDeployKwargs) :
    JumpStartModelDeployKwargs :=
  { k with instance_type := some (py_or_str k.instance_type
      (E.instance_types_retrieve_default k.region k.model_id k.model_version
        k.tolerate_deprecated_model k.tolerate_vulnerable_model k.sagemaker_session
        k.training_instance_type)) }

/-- `_add_image_uri_to_kwargs`:
`kwargs.image_uri = kwargs.image_uri or image_uris.retrieve(...)`. -/
def _add_image_uri_to_kwargs (E : Env) (k : JumpStartModelInitKwargs) :
    JumpStartModelInitKwargs :=
  { k with image_uri := some (py_or_str k.image_uri
      (E.image_uris_retrieve k.region k.model_id k.model_version k.instance_type
        k.tolerate_deprecated_model k.tolerate_vulnerable_model k.sagemaker_session)) }

/-- `_add_model_data_to_kwargs`: resolves
`model_data = kwargs.model_data or model_uris.retrieve(...)`, then rewrites a
string value that starts with `"s3://"` and ends with `"/"` into the structured
`S3DataSource` descriptor with data type `"S3Prefix"` and compression type
`"None"`; any other resolved value is stored unchanged. -/
def _add_model_data_to_kwargs (E : Env) (k : JumpStartModelInitKwargs) :
    JumpStartModelInitKwargs :=
  let model_data := py_or_model_data k.model_data
    (E.model_uris_retrieve k.model_id k.model_version k.region
      k.tolerate_deprecated_model k.tolerate_vulnerable_model k.sagemaker_session
      k.instance_type)
  let model_data2 :=
    match model_data with
    | .str s =>
      if str_startsWith s "s3://" && str_endsWith s "/" then
        ModelData.s3_data_source ⟨s, "S3Prefix", "None"⟩
      else .str s
    | .s3_data_source d => .s3_data_source d
  { k with model_data := some model_data2 }

/-- `_add_source_dir_to_kwargs`: only when the catalog reports inference-script
support is `source_dir = source_dir or script_uris.retrieve(...)` applied;
otherwise the field is stored back unchanged. -/
def _add_source_dir_to_kwargs (E : Env) (k : JumpStartModelInitKwargs) :
    JumpStartModelInitKwargs :=
  let source_dir :=
    if E.model_supports_inference_script_uri k.model_id k.model_version k.region
        k.tolerate_deprecated_model k.tolerate_vulnerable_model k.sagemaker_session then
      py_or_opt_str k.source_dir (some (E.script_uris_retrieve k.model_id k.model_version
        k.region k.tolerate_deprecated_model k.tolerate_vulnerable_model k.sagemaker_session))
    else k.source_dir
  { k with source_dir := source_dir }

/-- `_add_entry_point_to_kwargs`: only when the catalog reports
inference-script support is
`entry_point = entry_point or INFERENCE_ENTRY_POINT_SCRIPT_NAME` applied. -/
def _add_entry_point_to_kwargs (E : Env) (k : JumpStartModelInitKwargs) :
    JumpStartModelInitKwargs :=
  let entry_point :=
    if E.model_supports_inference_script_uri k.model_id k.model_version k.region
        k.tolerate_deprecated_model k.tolerate_vulnerable_model k.sagemaker_session then
      py_or_opt_str k.entry_point (some E.inference_entry_point_script_name)
    else k.entry_point
  { k with entry_point := entry_point }

/-- `_add_env_to_kwargs`: starts from the user map (or an empty dict when the
field is `None`), adds each catalog-provided variable via
`update_dict_if_key_not_present`, and stores `None` instead of an empty map. -/
def _add_env_to_kwargs (E : Env) (k : JumpStartModelInitKwargs) : JumpStartModelInitKwargs :=
  let env0 := k.env.getD []
  let extra_env_vars := E.environment_variables_retrieve_default k.model_id k.model_version
    k.region k.tolerate_deprecated_model k.tolerate_vulnerable_model k.sagemaker_session
    k.instance_type
  let env1 := extra_env_vars.foldl
    (fun acc kv => update_dict_if_key_not_present acc kv.1 kv.2) env0
  { k with env := if env1 = [] then none else some env1 }

/-- `_add_model_package_arn_to_kwargs`:
`kwargs.model_package_arn = kwargs.model_package_arn or _retrieve_model_package_arn(...)`. -/
def _add_model_package_arn_to_kwargs (E : Env) (k : JumpStartModelInitKwargs) :
    JumpStartModelInitKwargs :=
  { k with model_package_arn := py_or_opt_str k.model_package_arn (
      E.retrieve_model_package_arn k.model_id k.model_version k.instance_type k.region
        k.tolerate_deprecated_model k.tolerate_vulnerable_model k.sagemaker_session) }

/-- `_add_extra_model_kwargs`: iterates the catalog init-kwargs bundle and sets
each field that is currently `None`. -/
def _add_extra_model_kwargs (E : Env) (k : JumpStartModelInitKwargs) :
    JumpStartModelInitKwargs :=
  (E.retrieve_model_init_kwargs k.model_id k.model_version k.region
    k.tolerate_deprecated_model k.tolerate_vulnerable_model
    k.sagemaker_session).foldl set_init_field_if_none k

/-- `_add_predictor_cls_to_kwargs`:
`kwargs.predictor_cls = kwargs.predictor_cls or Predictor` (a class object is
always truthy). -/
def _add_predictor_cls_to_kwargs (k : JumpStartModelInitKwargs) : JumpStartModelInitKwargs :=
  { k with predictor_cls := some (k.predictor_cls.getD PredictorClass.predictor) }

/-- `_add_model_name_to_kwargs`: the default resource name from the catalog,
passed through `name_from_base` when present. -/
def _add_model_name_to_kwargs (E : Env) (k : JumpStartModelInitKwargs) :
    JumpStartModelInitKwargs :=
  let default_model_name := E.retrieve_resource_name_base k.model_id k.model_version k.region
    k.tolerate_deprecated_model k.tolerate_vulnerable_model k.sagemaker_session
  { k with name := py_or_opt_str k.name (default_model_name.map E.name_from_base) }

/-- `_add_endpoint_name_to_kwargs` (deploy record): the default resource name
from the catalog, passed through `name_from_base` when present. -/
def _add_endpoint_name_to_kwargs (E : Env) (k : JumpStartModelDeployKwargs) :
    JumpStartModelDeployKwargs :=
  let default_endpoint_name := E.retrieve_resource_name_base k.model_id k.model_version
    k.region k.tolerate_deprecated_model k.tolerate_vulnerable_model k.sagemaker_session
  { k with endpoint_name := py_or_opt_str k.endpoint_name (
      default_endpoint_name.map E.name_from_base) }

/-- `_add_tags_to_kwargs`: fetches the full model version from the catalog and
appends the catalog-identifying tags only when the session policy flag
`settings.include_jumpstart_tags` is enabled.  The pipeline guarantees the
session is set by this point; Python would raise on a `None` session, the
embedding reads the flag as false in that unreachable case. -/
def _add_tags_to_kwargs (E : Env) (k : JumpStartModelDeployKwargs) :
    JumpStartModelDeployKwargs :=
  let full_model_version := E.verify_specs_version k.model_id k.model_version k.region
    k.tolerate_vulnerable_model k.tolerate_deprecated_model k.sagemaker_session
  if (k.sagemaker_session.map fun s => s.settings.include_jumpstart_tags).getD false then
    { k with tags := some (add_jumpstart_model_id_version_tags k.tags k.model_id
        full_model_version) }
  else k

/-- `_add_deploy_extra_kwargs`: iterates the catalog deploy-kwargs bundle and
sets each field that is currently `None`. -/
def _add_deploy_extra_kwargs (E : Env) (k : JumpStartModelDeployKwargs) :
    JumpStartModelDeployKwargs :=
  (E.retrieve_model_deploy_kwargs k.model_id k.model_version k.instance_type k.region
    k.tolerate_deprecated_model k.tolerate_vulnerable_model
    k.sagemaker_session).foldl set_deploy_field_if_none k

/-- `_add_resources_to_kwargs` on the init record:
`kwargs.resources = kwargs.resources or resource_requirements.retrieve_default(...)`
(a resource-requirements object is always truthy). -/
def _add_resources_to_kwargs (E : Env) (k : JumpStartModelInitKwargs) :
    JumpStartModelInitKwargs :=
  { k with resources := some (k.resources.getD
      (E.resource_requirements_retrieve_default k.region k.model_id k.model_version
        k.tolerate_deprecated_model k.tolerate_vulnerable_model k.sagemaker_session)) }

/-- `_add_resources_to_kwargs` on the deploy record. -/
def _add_resources_to_deploy_kwargs (E : Env) (k : JumpStartModelDeployKwargs) :
    JumpStartModelDeployKwargs :=
  { k with resources := some (k.resources.getD
      (E.resource_requirements_retrieve_default k.region k.model_id k.model_version
        k.tolerate_deprecated_model k.tolerate_vulnerable_model k.sagemaker_session)) }

/-- The caller's keyword arguments to `get_init_kwargs`, all optional except
the model id, with the source's defaults. -/
structure GetInitKwargsArgs where
  model_id : String
  model_from_estimator : Bool := false
  model_version : Option String := none
  tolerate_vulnerable_model : Option Bool := none
  tolerate_deprecated_model : Option Bool := none
  instance_type : Option String := none
  region : Option String := none
  image_uri : Option String := none
  model_data : Option ModelData := none
  role : Option String := none
  predictor_cls : Option PredictorClass := none
  env : Option (List (String × String)) := none
  name : Option String := none
  vpc_config : Option (List (String × List String)) := none
  sagemaker_session : Option Session := none
  enable_network_isolation : Option Bool := none
  model_kms_key : Option String := none
  image_config : Option (List (String × String)) := none
  source_dir : Option String := none
  code_location : Option String := none
  entry_point : Option String := none
  container_log_level : Option Nat := none
  dependencies : Option (List String) := none
  git_config : Option (List (String × String)) := none
  model_package_arn : Option String := none
  training_instance_type : Option String := none
  disable_instance_type_logging : Bool := false
  resources : Option ResourceRequirements := none
deriving DecidableEq, Repr

/-- `get_init_kwargs`: builds the init record from the caller arguments and
applies the default-filling steps in the source's order; the model-data step is
skipped when the model comes from an estimator (the training-job artifact is
used instead). -/
def get_init_kwargs (E : Env) (a : GetInitKwargsArgs) : JumpStartModelInitKwargs :=
  let k : JumpStartModelInitKwargs :=
    { model_id := a.model_id
      model_version := a.model_version
      instance_type := a.instance_type
      region := a.region
      image_uri := a.image_uri
      model_data := a.model_data
      source_dir := a.source_dir
      entry_point := a.entry_point
      env := a.env
      predictor_cls := a.predictor_cls
      role := a.role
      name := a.name
      vpc_config := a.vpc_config
      sagemaker_session := a.sagemaker_session
      enable_network_isolation := a.enable_network_isolation
      model_kms_key := a.model_kms_key
      image_config := a.image_config
      code_location := a.code_location
      container_log_level := a.container_log_level
      dependencies := a.dependencies
      git_config := a.git_config
      tolerate_deprecated_model := a.tolerate_deprecated_model
      tolerate_vulnerable_model := a.tolerate_vulnerable_model
      model_package_arn := a.model_package_arn
      training_instance_type := a.training_instance_type
      resources := a.resources }
  let k := _add_model_version_to_kwargs k
  let k := _add_vulnerable_and_deprecated_status_to_kwargs k
  let k := _add_region_to_kwargs E k
  let k := _add_sagemaker_session_to_kwargs E k
  let k := _add_model_name_to_kwargs E k
  let k := _add_instance_type_to_kwargs E k
  let k := _add_image_uri_to_kwargs E k
  let k := if a.model_from_estimator then k else _add_model_data_to_kwargs E k
  let k := _add_source_dir_to_kwargs E k
  let k := _add_entry_point_to_kwargs E k
  let k := _add_env_to_kwargs E k
  let k := _add_predictor_cls_to_kwargs k
  let k := _add_extra_model_kwargs E k
  let k := _add_role_to_kwargs k
  let k := _add_model_package_arn_to_kwargs E k
  let k := _add_resources_to_kwargs E k
  k

/-- The caller's keyword arguments to `get_deploy_kwargs`, all optional except
the model id. -/
structure GetDeployKwargsArgs where
  model_id : String
  model_version : Option String := none
  region : Option String := none
  initial_instance_count : Option Nat := none
  instance_type : Option String := none
  serializer : Option String := none
  deserializer : Option String := none
  accelerator_type : Option String := none
  endpoint_name : Option String := none
  tags : Option (List (String × String)) := none
  kms_key : Option String := none
  wait : Option Bool := none
  data_capture_config : Option String := none
  async_inference_config : Option String := none
  serverless_inference_config : Option String := none
  volume_size : Option Nat := none
  model_data_download_timeout : Option Nat := none
  container_startup_health_check_timeout : Option Nat := none
  inference_recommendation_id : Option String := none
  explainer_config : Option String := none
  tolerate_vulnerable_model : Option Bool := none
  tolerate_deprecated_model : Option Bool := none
  sagemaker_session : Option Session := none
  accept_eula : Option Bool := none
  endpoint_logging : Option Bool := none
  resources : Option ResourceRequirements := none
  managed_instance_scaling : Option String := none
  endpoint_type : Option EndpointType := none
deriving DecidableEq, Repr

/-- `get_deploy_kwargs`: builds the deploy record (whose constructor receives
neither `endpoint_type` nor `managed_instance_scaling`), applies the
default-filling steps in the source's order, and only for an
inference-component-based endpoint type fills `resources` from the catalog and
copies `endpoint_type` and `managed_instance_scaling` from the arguments. -/
def get_deploy_kwargs (E : Env) (a : GetDeployKwargsArgs) : JumpStartModelDeployKwargs :=
  let k : JumpStartModelDeployKwargs :=
    { model_id := a.model_id
      model_version := a.model_version
      region := a.region
      initial_instance_count := a.initial_instance_count
      instance_type := a.instance_type
      serializer := a.serializer
      deserializer := a.deserializer
      accelerator_type := a.accelerator_type
      endpoint_name := a.endpoint_name
      tags := a.tags
      kms_key := a.kms_key
      wait := a.wait
      data_capture_config := a.data_capture_config
      async_inference_config := a.async_inference_config
      serverless_inference_config := a.serverless_inference_config
      volume_size := a.volume_size
      model_data_download_timeout := a.model_data_download_timeout
      container_startup_health_check_timeout := a.container_startup_health_check_timeout
      inference_recommendation_id := a.inference_recommendation_id
      explainer_config := a.explainer_config
      tolerate_deprecated_model := a.tolerate_deprecated_model
      tolerate_vulnerable_model := a.tolerate_vulnerable_model
      sagemaker_session := a.sagemaker_session
      accept_eula := a.accept_eula
      endpoint_logging := a.endpoint_logging
      resources := a.resources }
  let k := _add_sagemaker_session_to_deploy_kwargs E k
  let k := _add_model_version_to_deploy_kwargs k
  let k := _add_endpoint_name_to_kwargs E k
  let k := _add_instance_type_to_deploy_kwargs E k
  let k := { k with initial_instance_count := some (py_or_nat a.initial_instance_count 1) }
  let k := _add_deploy_extra_kwargs E k
  let k := _add_tags_to_kwargs E k
  if a.endpoint_type = some EndpointType.inference_component_based then
    let k := _add_resources_to_deploy_kwargs E k
    { k with endpoint_type := a.endpoint_type
             managed_instance_scaling := a.managed_instance_scaling }
  else k

/-- The caller's keyword arguments to `get_register_kwargs`, all optional
except the model id. -/
structure GetRegisterKwargsArgs where
  model_id : String
  model_version : Option String := none
  region : Option String := none
  tolerate_deprecated_model : Option Bool := none
  tolerate_vulnerable_model : Option Bool := none
  sagemaker_session : Option Session := none
  supported_content_types : Option (List String) := none
  response_types : Option (List String) := none
  inference_instances : Option (List String) := none
  transform_instances : Option (List String) := none
  model_package_group_name : Option String := none
  image_uri : Option String := none
  model_metrics : Option String := none
  metadata_properties : Option String := none
  approval_status : Option String := none
  description : Option String := none
  drift_check_baselines : Option String := none
  customer_metadata_properties : Option (List (String × String)) := none
  validation_specification : Option String := none
  domain : Option String := none
  task : Option String := none
  sample_payload_url : Option String := none
  framework : Option String := none
  framework_version : Option String := none
  nearest_model_name : Option String := none
  data_input_configuration : Option String := none
  skip_model_validation : Option String := none
deriving DecidableEq, Repr

/-- `get_register_kwargs`: builds the register record, then fills
`content_types` and `response_types` from the catalog predictor specs when the
caller left them falsy. -/
def get_register_kwargs (E : Env) (a : GetRegisterKwargsArgs) : JumpStartModelRegisterKwargs :=
  let k : JumpStartModelRegisterKwargs :=
    { model_id := a.model_id
      model_version := a.model_version
      region := a.region
      tolerate_deprecated_model := a.tolerate_deprecated_model
      tolerate_vulnerable_model := a.tolerate_vulnerable_model
      sagemaker_session := a.sagemaker_session
      content_types := a.supported_content_types
      response_types := a.response_types
      inference_instances := a.inference_instances
      transform_instances := a.transform_instances
      model_package_group_name := a.model_package_group_name
      image_uri := a.image_uri
      model_metrics := a.model_metrics
      metadata_properties := a.metadata_properties
      approval_status := a.approval_status
      description := a.description
      drift_check_baselines := a.drift_check_baselines
      customer_metadata_properties := a.customer_metadata_properties
      validation_specification := a.validation_specification
      domain := a.domain
      task := a.task
      sample_payload_url := a.sample_payload_url
      framework := a.framework
      framework_version := a.framework_version
      nearest_model_name := a.nearest_model_name
      data_input_configuration := a.data_input_configuration
      skip_model_validation := a.skip_model_validation }
  let k := { k with content_types := some (py_or_list k.content_types (
      E.supported_content_types a.model_id a.model_version a.region a.sagemaker_session
        a.tolerate_deprecated_model a.tolerate_vulnerable_model)) }
  let k := { k with response_types := some (py_or_list k.response_types (
      E.supported_accept_types a.model_id a.model_version a.region a.sagemaker_session
        a.tolerate_deprecated_model a.tolerate_vulnerable_model)) }
  k

/-- A predictor object: its exact runtime class plus the four fields that
`get_default_predictor` mutates. -/
structure Predictor where
  cls : PredictorClass
  serializer : Option String := none
  deserializer : Option String := none
  accept : Option String := none
  content_type : Option String := none
deriving DecidableEq, Repr

/-- `get_default_predictor`: raises (models as `Except.error`) unless the
predictor is exactly the base `Predictor` class, otherwise returns the same
predictor with serializer, deserializer, accept and content type set to the
catalog defaults for the given model id, version and region. -/
def get_default_predictor (E : Env) (predictor : Predictor)
    (model_id model_version region : String)
    (tolerate_vulnerable_model tolerate_deprecated_model : Bool)
    (sagemaker_session : Session) : Except String Predictor :=
  if predictor.cls ≠ PredictorClass.predictor then
    .error ("Can only get default predictor from base Predictor class. Using Predictor class "
      ++ predictor.cls.class_name ++ ".")
  else
    .ok { predictor with
      serializer := some (E.serializers_retrieve_default model_id model_version region
        tolerate_deprecated_model tolerate_vulnerable_model sagemaker_session)
      deserializer := some (E.deserializers_retrieve_default model_id model_version region
        tolerate_deprecated_model tolerate_vulnerable_model sagemaker_session)
      accept := some (E.accept_types_retrieve_default model_id model_version region
        tolerate_deprecated_model tolerate_vulnerable_model sagemaker_session)
      content_type := some (E.content_types_retrieve_default model_id model_version region
        tolerate_deprecated_model tolerate_vulnerable_model sagemaker_session) }

/-- A concrete session whose tag policy flag is disabled. -/
def test_session : Session :=
  { settings := { include_jumpstart_tags := false }, sagemaker_config := [] }

/-- A concrete session whose tag policy flag is enabled. -/
def tagging_session : Session :=
  { settings := { include_jumpstart_tags := true }, sagemaker_config := [] }

/-- A concrete collaborator environment with benign constant lookups: empty
kwargs bundles, no inference-script support, and a tag policy that is off. -/
def test_env : Env :=
  { default_region_name := "us-west-2"
    default_sagemaker_session := test_session
    inference_entry_point_script_name := "inference.py"
    instance_types_retrieve_default := fun _ _ _ _ _ _ _ => "ml.g5.2xlarge"
    image_uris_retrieve := fun _ _ _ _ _ _ _ => "763104351884.dkr.ecr.us-west-2.amazonaws.com/img:latest"
    model_uris_retrieve := fun _ _ _ _ _ _ _ => "s3://jumpstart-cache/artifacts/model/"
    script_uris_retrieve := fun _ _ _ _ _ _ => "s3://jumpstart-cache/scripts/sourcedir.tar.gz"
    model_supports_inference_script_uri := fun _ _ _ _ _ _ => false
    environment_variables_retrieve_default := fun _ _ _ _ _ _ _ => [("A", "2"), ("B", "3")]
    retrieve_model_package_arn := fun _ _ _ _ _ _ _ => none
    retrieve_model_init_kwargs := fun _ _ _ _ _ _ => []
    retrieve_model_deploy_kwargs := fun _ _ _ _ _ _ _ => []
    retrieve_resource_name_base := fun _ _ _ _ _ _ => some "blahblahblah"
    name_from_base := fun s => s ++ "-2024-01-01-00-00-00-000"
    resource_requirements_retrieve_default := fun _ _ _ _ _ _ => ⟨"default-resources"⟩
    verify_specs_version := fun _ _ _ _ _ _ => "1.0.0"
    serializers_retrieve_default := fun _ _ _ _ _ _ => "IdentitySerializer"
    deserializers_retrieve_default := fun _ _ _ _ _ _ => "JSONDeserializer"
    accept_types_retrieve_default := fun _ _ _ _ _ _ => "application/json"
    content_types_retrieve_default := fun _ _ _ _ _ _ => "application/x-image"
    supported_content_types := fun _ _ _ _ _ _ => ["application/x-image"]
    supported_accept_types := fun _ _ _ _ _ _ => ["application/json"] }

/-- A variant of `test_env` whose catalog bundles do supply extra kwargs:
the init bundle carries an `entry_point` key, the deploy bundle carries `tags`
and `resources` keys. -/
def bundle_env : Env :=
  { test_env with
    retrieve_model_init_kwargs := fun _ _ _ _ _ _ =>
      [InitKwargEntry.entry_point "bundle_inference.py"]
    retrieve_model_deploy_kwargs := fun _ _ _ _ _ _ _ =>
      [DeployKwargEntry.tags [("bundle-key", "bundle-value")],
       DeployKwargEntry.resources ⟨"bundle-resources"⟩] }

/-- A variant of `test_env` whose catalog reports inference-script support. -/
def script_env : Env :=
  { test_env with model_supports_inference_script_uri := fun _ _ _ _ _ _ => true }

/-- A variant of `test_env` whose catalog init-kwargs bundle supplies a
`resources` entry. -/
def c2_bundle_env : Env :=
  { test_env with
    retrieve_model_init_kwargs := fun _ _ _ _ _ _ =>
      [InitKwargEntry.resources ⟨"bundle-resources"⟩] }

/-- Left-biased choice on options, used to state dictionary-merge lookups. -/
def opt_or {α : Type} (a b : Option α) : Option α :=
  match a with
  | some v => some v
  | none => b

/-- An alternative instance-type lookup, used to show the default lookup is not
consulted when the caller supplies a truthy instance type. -/
def alt_instance_type_lookup :
    Option String → String → Option String → Option Bool → Option Bool →
    Option Session → Option String → String :=
  fun _ _ _ _ _ _ _ => "ml.alt.99xlarge"

/-- An alternative image-uri lookup, used to show the default lookup is not
consulted when the caller supplies a truthy image uri. -/
def alt_image_uri_lookup :
    Option String → String → Option String → Option String → Option Bool → Option Bool →
    Option Session → String :=
  fun _ _ _ _ _ _ _ => "alt-image-uri"

/-- The benign environment with both the instance-type and the image-uri
lookups replaced by the alternative ones. -/
def c1_alt_env : Env :=
  { test_env with
    instance_types_retrieve_default := alt_instance_type_lookup
    image_uris_retrieve := alt_image_uri_lookup }

/-- Init-kwargs call with an explicitly empty instance type string. -/
def c1_empty_args : GetInitKwargsArgs := { model_id := "mid", instance_type := some "" }

/-- Init-kwargs call with truthy explicit instance type and image uri. -/
def c1_truthy_args : GetInitKwargsArgs :=
  { model_id := "mid", instance_type := some "ml.p3.2xlarge",
    image_uri := some "custom-image" }

/-- An init record whose model data is an explicit S3 prefix string. -/
def c3_prefix_kwargs : JumpStartModelInitKwargs :=
  { model_id := "mid", model_data := some (ModelData.str "s3://bucket/prefix/") }

/-- An init record whose model data is an explicit tarball uri (no trailing
slash). -/
def c3_plain_kwargs : JumpStartModelInitKwargs :=
  { model_id := "mid", model_data := some (ModelData.str "s3://bucket/model.tar.gz") }

/-- An init record with a user environment map overriding key A. -/
def c5_kwargs : JumpStartModelInitKwargs := { model_id := "mid", env := some [("A", "1")] }

/-- A predictor of exactly the base class. -/
def base_predictor : Predictor := { cls := PredictorClass.predictor }

/-- A predictor of a subclass of the base class. -/
def custom_predictor : Predictor := { cls := PredictorClass.subclass "MyPredictor" }

/-- An init record with an explicit image uri already set. -/
def c8_init_kwargs : JumpStartModelInitKwargs :=
  { model_id := "mid", image_uri := some "explicit-image" }

/-- A deploy record with an explicit KMS key already set. -/
def c8_deploy_kwargs : JumpStartModelDeployKwargs :=
  { model_id := "mid", kms_key := some "explicit-key" }

/-- An init-kwargs call that leaves every optional argument unset. -/
def plain_init_args : GetInitKwargsArgs := { model_id := "mid" }

/-- A deploy-kwargs call that leaves every optional argument unset. -/
def plain_deploy_args : GetDeployKwargsArgs := { model_id := "mid" }

/-- A deploy-kwargs call with caller-supplied tags. -/
def c7_tagged_args : GetDeployKwargsArgs :=
  { model_id := "mid", tags := some [("user-key", "user-value")] }

/-- An init-kwargs call from an estimator with an explicit S3-prefix model-data
string. -/
def c9_estimator_args : GetInitKwargsArgs :=
  { model_id := "mid", model_from_estimator := true,
    model_data := some (ModelData.str "s3://bucket/prefix/") }

/-- The same call not from an estimator. -/
def c9_plain_args : GetInitKwargsArgs :=
  { model_id := "mid", model_data := some (ModelData.str "s3://bucket/prefix/") }

/-- A deploy-kwargs call with explicit resources and a non-inference-component
endpoint type. -/
def c10_user_args : GetDeployKwargsArgs :=
  { model_id := "mid", resources := some ⟨"user-resources"⟩,
    endpoint_type := some EndpointType.model_based }

theorem opt_or_self_none {α : Type} (a : Option α) : opt_or a none = a := by
  cases a <;> rfl

theorem py_or_opt_str_none (b : Option String) : py_or_opt_str none b = b := rfl

theorem py_or_str_none (b : String) : py_or_str none b = b := rfl

theorem dict_lookup_append (d e : List (String × String)) (key : String) :
    dict_lookup (d ++ e) key = opt_or (dict_lookup d key) (dict_lookup e key) := by
  induction d with
  | nil => simp [dict_lookup, opt_or]
  | cons hd tl ih =>
    obtain ⟨k, v⟩ := hd
    by_cases h : key = k
    · simp [dict_lookup, h, opt_or]
    · simp [dict_lookup, h, ih]

theorem env_update_foldl_lookup (extra : List (String × String))
    (d : List (String × String)) (key : String) :
    dict_lookup (extra.foldl (fun acc kv => update_dict_if_key_not_present acc kv.1 kv.2) d) key
      = opt_or (dict_lookup d key) (dict_lookup extra key) := by
  induction extra generalizing d with
  | nil => simp [dict_lookup, opt_or_self_none]
  | cons kv rest ih =>
    obtain ⟨k1, v1⟩ := kv
    rw [List.foldl_cons, ih]
    show opt_or (dict_lookup (update_dict_if_key_not_present d k1 v1) key) (dict_lookup rest key)
      = opt_or (dict_lookup d key) (dict_lookup ((k1, v1) :: rest) key)
    by_cases h1 : (dict_lookup d k1).isSome
    · rw [update_dict_if_key_not_present, if_pos h1]
      by_cases hk : key = k1
      · subst hk
        obtain ⟨w, hw⟩ := Option.isSome_iff_exists.mp h1
        simp [dict_lookup, hw, opt_or]
      · simp [dict_lookup, hk]
    · rw [update_dict_if_key_not_present, if_neg h1, dict_lookup_append]
      by_cases hk : key = k1
      · subst hk
        rw [Option.not_isSome_iff_eq_none] at h1
        simp [dict_lookup, h1, opt_or]
      · simp [dict_lookup, hk, opt_or_self_none]

theorem set_init_field_if_none_preserves_some (e : InitKwargEntry)
    (k : JumpStartModelInitKwargs) (f : InitField) (h : (init_get k f).isSome) :
    init_get (set_init_field_if_none k e) f = init_get k f := by
  cases e <;> cases f <;>
    simp only [set_init_field_if_none, init_get] at h ⊢ <;>
    split <;> simp_all

theorem set_init_field_if_none_sets (e : InitKwargEntry) (k : JumpStartModelInitKwargs)
    (h : init_get k (init_entry_field e) = none) :
    init_get (set_init_field_if_none k e) (init_entry_field e) = some (init_entry_val e) := by
  cases e <;>
    simp_all [set_init_field_if_none, init_get, init_entry_field, init_entry_val]

theorem foldl_set_init_preserves_some (es : List InitKwargEntry)
    (k : JumpStartModelInitKwargs) (f : InitField) (h : (init_get k f).isSome) :
    init_get (es.foldl set_init_field_if_none k) f = init_get k f := by
  induction es generalizing k with
  | nil => rfl
  | cons e rest ih =>
    rw [List.foldl_cons]
    have step := set_init_field_if_none_preserves_some e k f h
    rw [ih _ (by rw [step]; exact h), step]

theorem set_deploy_field_if_none_preserves_some (e : DeployKwargEntry)
    (k : JumpStartModelDeployKwargs) (f : DeployField) (h : (deploy_get k f).isSome) :
    deploy_get (set_deploy_field_if_none k e) f = deploy_get k f := by
  cases e <;> cases f <;>
    simp only [set_deploy_field_if_none, deploy_get] at h ⊢ <;>
    split <;> simp_all

theorem set_deploy_field_if_none_sets (e : DeployKwargEntry) (k : JumpStartModelDeployKwargs)
    (h : deploy_get k (deploy_entry_field e) = none) :
    deploy_get (set_deploy_field_if_none k e) (deploy_entry_field e)
      = some (deploy_entry_val e) := by
  cases e <;>
    simp_all [set_deploy_field_if_none, deploy_get, deploy_entry_field, deploy_entry_val]

theorem foldl_set_deploy_preserves_some (es : List DeployKwargEntry)
    (k : JumpStartModelDeployKwargs) (f : DeployField) (h : (deploy_get k f).isSome) :
    deploy_get (es.foldl set_deploy_field_if_none k) f = deploy_get k f := by
  induction es generalizing k with
  | nil => rfl
  | cons e rest ih =>
    rw [List.foldl_cons]
    have step := set_deploy_field_if_none_preserves_some e k f h
    rw [ih _ (by rw [step]; exact h), step]

theorem foldl_set_init_model_id : ∀ (es : List InitKwargEntry)
    (k : JumpStartModelInitKwargs),
    (es.foldl set_init_field_if_none k).model_id = k.model_id := by
  intro es
  induction es with
  | nil => intro _; rfl
  | cons e rest ih =>
    intro k
    rw [List.foldl_cons, ih]
    cases e <;> simp only [set_init_field_if_none] <;> split <;> rfl

theorem foldl_set_init_model_version : ∀ (es : List InitKwargEntry)
    (k : JumpStartModelInitKwargs),
    (es.foldl set_init_field_if_none k).model_version = k.model_version := by
  intro es
  induction es with
  | nil => intro _; rfl
  | cons e rest ih =>
    intro k
    rw [List.foldl_cons, ih]
    cases e <;> simp only [set_init_field_if_none] <;> split <;> rfl

theorem foldl_set_init_region : ∀ (es : List InitKwargEntry)
    (k : JumpStartModelInitKwargs),
    (es.foldl set_init_field_if_none k).region = k.region := by
  intro es
  induction es with
  | nil => intro _; rfl
  | cons e rest ih =>
    intro k
    rw [List.foldl_cons, ih]
    cases e <;> simp only [set_init_field_if_none] <;> split <;> rfl

theorem foldl_set_init_tolerate_deprecated : ∀ (es : List InitKwargEntry)
    (k : JumpStartModelInitKwargs),
    (es.foldl set_init_field_if_none k).tolerate_deprecated_model
      = k.tolerate_deprecated_model := by
  intro es
  induction es with
  | nil => intro _; rfl
  | cons e rest ih =>
    intro k
    rw [List.foldl_cons, ih]
    cases e <;> simp only [set_init_field_if_none] <;> split <;> rfl

theorem foldl_set_init_tolerate_vulnerable : ∀ (es : List InitKwargEntry)
    (k : JumpStartModelInitKwargs),
    (es.foldl set_init_field_if_none k).tolerate_vulnerable_model
      = k.tolerate_vulnerable_model := by
  intro es
  induction es with
  | nil => intro _; rfl
  | cons e rest ih =>
    intro k
    rw [List.foldl_cons, ih]
    cases e <;> simp only [set_init_field_if_none] <;> split <;> rfl

theorem foldl_set_init_sagemaker_session : ∀ (es : List InitKwargEntry)
    (k : JumpStartModelInitKwargs),
    (es.foldl set_init_field_if_none k).sagemaker_session = k.sagemaker_session := by
  intro es
  induction es with
  | nil => intro _; rfl
  | cons e rest ih =>
    intro k
    rw [List.foldl_cons, ih]
    cases e <;> simp only [set_init_field_if_none] <;> split <;> rfl

theorem foldl_set_init_resources_clean : ∀ (es : List InitKwargEntry),
    (∀ e ∈ es, init_entry_field e ≠ InitField.resources) →
    ∀ (k : JumpStartModelInitKwargs),
    (es.foldl set_init_field_if_none k).resources = k.resources := by
  intro es
  induction es with
  | nil => intro _ _; rfl
  | cons e rest ih =>
    intro h k
    rw [List.foldl_cons, ih (fun x hx => h x (List.mem_cons_of_mem e hx))]
    have he := h e (List.mem_cons_self e rest)
    cases e <;> simp only [set_init_field_if_none] <;> first
      | (split <;> rfl)
      | simp [init_entry_field] at he

theorem foldl_set_init_instance_type : ∀ (es : List InitKwargEntry)
    (k : JumpStartModelInitKwargs),
    (es.foldl set_init_field_if_none k).instance_type = k.instance_type := by
  intro es
  induction es with
  | nil => intro _; rfl
  | cons e rest ih =>
    intro k
    rw [List.foldl_cons, ih]
    cases e <;> simp only [set_init_field_if_none] <;> split <;> rfl

theorem foldl_set_init_image_uri_some : ∀ (es : List InitKwargEntry)
    (k : JumpStartModelInitKwargs) (u : String), k.image_uri = some u →
    (es.foldl set_init_field_if_none k).image_uri = some u := by
  intro es
  induction es with
  | nil => intro _ _ h; exact h
  | cons e rest ih =>
    intro k u h
    rw [List.foldl_cons]
    refine ih _ _ ?_
    cases e <;> simp only [set_init_field_if_none] <;> split <;> simp_all

theorem foldl_set_init_model_data_some : ∀ (es : List InitKwargEntry)
    (k : JumpStartModelInitKwargs) (m : ModelData), k.model_data = some m →
    (es.foldl set_init_field_if_none k).model_data = some m := by
  intro es
  induction es with
  | nil => intro _ _ h; exact h
  | cons e rest ih =>
    intro k m h
    rw [List.foldl_cons]
    refine ih _ _ ?_
    cases e <;> simp only [set_init_field_if_none] <;> split <;> simp_all

theorem foldl_set_init_entry_point_clean : ∀ (es : List InitKwargEntry),
    (∀ e ∈ es, init_entry_field e ≠ InitField.entry_point) →
    ∀ (k : JumpStartModelInitKwargs),
    (es.foldl set_init_field_if_none k).entry_point = k.entry_point := by
  intro es
  induction es with
  | nil => intro _ _; rfl
  | cons e rest ih =>
    intro h k
    rw [List.foldl_cons, ih (fun x hx => h x (List.mem_cons_of_mem e hx))]
    have he := h e (List.mem_cons_self e rest)
    cases e <;> simp only [set_init_field_if_none] <;> first
      | (split <;> rfl)
      | simp [init_entry_field] at he

theorem foldl_set_init_source_dir_clean : ∀ (es : List InitKwargEntry),
    (∀ e ∈ es, init_entry_field e ≠ InitField.source_dir) →
    ∀ (k : JumpStartModelInitKwargs),
    (es.foldl set_init_field_if_none k).source_dir = k.source_dir := by
  intro es
  induction es with
  | nil => intro _ _; rfl
  | cons e rest ih =>
    intro h k
    rw [List.foldl_cons, ih (fun x hx => h x (List.mem_cons_of_mem e hx))]
    have he := h e (List.mem_cons_self e rest)
    cases e <;> simp only [set_init_field_if_none] <;> first
      | (split <;> rfl)
      | simp [init_entry_field] at he

theorem foldl_set_deploy_sagemaker_session : ∀ (es : List DeployKwargEntry)
    (k : JumpStartModelDeployKwargs),
    (es.foldl set_deploy_field_if_none k).sagemaker_session = k.sagemaker_session := by
  intro es
  induction es with
  | nil => intro _; rfl
  | cons e rest ih =>
    intro k
    rw [List.foldl_cons, ih]
    cases e <;> simp only [set_deploy_field_if_none] <;> split <;> rfl

theorem foldl_set_deploy_tags_clean : ∀ (es : List DeployKwargEntry),
    (∀ e ∈ es, deploy_entry_field e ≠ DeployField.tags) →
    ∀ (k : JumpStartModelDeployKwargs),
    (es.foldl set_deploy_field_if_none k).tags = k.tags := by
  intro es
  induction es with
  | nil => intro _ _; rfl
  | cons e rest ih =>
    intro h k
    rw [List.foldl_cons, ih (fun x hx => h x (List.mem_cons_of_mem e hx))]
    have he := h e (List.mem_cons_self e rest)
    cases e <;> simp only [set_deploy_field_if_none] <;> first
      | (split <;> rfl)
      | simp [deploy_entry_field] at he

theorem foldl_set_deploy_resources_clean : ∀ (es : List DeployKwargEntry),
    (∀ e ∈ es, deploy_entry_field e ≠ DeployField.resources) →
    ∀ (k : JumpStartModelDeployKwargs),
    (es.foldl set_deploy_field_if_none k).resources = k.resources := by
  intro es
  induction es with
  | nil => intro _ _; rfl
  | cons e rest ih =>
    intro h k
    rw [List.foldl_cons, ih (fun x hx => h x (List.mem_cons_of_mem e hx))]
    have he := h e (List.mem_cons_self e rest)
    cases e <;> simp only [set_deploy_field_if_none] <;> first
      | (split <;> rfl)
      | simp [deploy_entry_field] at he

theorem foldl_set_deploy_endpoint_type_clean : ∀ (es : List DeployKwargEntry),
    (∀ e ∈ es, deploy_entry_field e ≠ DeployField.endpoint_type) →
    ∀ (k : JumpStartModelDeployKwargs),
    (es.foldl set_deploy_field_if_none k).endpoint_type = k.endpoint_type := by
  intro es
  induction es with
  | nil => intro _ _; rfl
  | cons e rest ih =>
    intro h k
    rw [List.foldl_cons, ih (fun x hx => h x (List.mem_cons_of_mem e hx))]
    have he := h e (List.mem_cons_self e rest)
    cases e <;> simp only [set_deploy_field_if_none] <;> first
      | (split <;> rfl)
      | simp [deploy_entry_field] at he

theorem foldl_set_deploy_managed_scaling_clean : ∀ (es : List DeployKwargEntry),
    (∀ e ∈ es, deploy_entry_field e ≠ DeployField.managed_instance_scaling) →
    ∀ (k : JumpStartModelDeployKwargs),
    (es.foldl set_deploy_field_if_none k).managed_instance_scaling
      = k.managed_instance_scaling := by
  intro es
  induction es with
  | nil => intro _ _; rfl
  | cons e rest ih =>
    intro h k
    rw [List.foldl_cons, ih (fun x hx => h x (List.mem_cons_of_mem e hx))]
    have he := h e (List.mem_cons_self e rest)
    cases e <;> simp only [set_deploy_field_if_none] <;> first
      | (split <;> rfl)
      | simp [deploy_entry_field] at he

/-- C1 counterexample: the caller explicitly supplies `instance_type=""`; the
claim says the record retains that exact value and the instance-type lookup is
never consulted, but Python `or` treats the empty string as falsy, so the
returned record carries the catalog default instead of the caller's value. -/
theorem explicit_empty_instance_type_not_retained :
    (get_init_kwargs test_env c1_empty_args).instance_type = some "ml.g5.2xlarge"
    ∧ (get_init_kwargs test_env c1_empty_args).instance_type ≠ some "" := by
  decide

/-- C1 (amended): if the caller supplies a truthy (non-empty) explicit value
for a default-filled field such as `instance_type` or `image_uri`, the returned
record retains that exact value, and the corresponding lookup is never
consulted: the result is unchanged when both lookups are replaced by arbitrary
other functions. -/
theorem explicit_truthy_instance_type_and_image_uri_retained (E : Env)
    (g : Option String → String → Option String → Option Bool → Option Bool →
      Option Session → Option String → String)
    (g2 : Option String → String → Option String → Option String → Option Bool →
      Option Bool → Option Session → String)
    (a : GetInitKwargsArgs) (v u : String)
    (hv : a.instance_type = some v) (hv2 : v ≠ "")
    (hu : a.image_uri = some u) (hu2 : u ≠ "") :
    (get_init_kwargs E a).instance_type = some v
    ∧ (get_init_kwargs E a).image_uri = some u
    ∧ get_init_kwargs
        { E with instance_types_retrieve_default := g, image_uris_retrieve := g2 } a
      = get_init_kwargs E a := by
  refine ⟨?_, ?_, ?_⟩ <;>
    simp [get_init_kwargs, _add_model_version_to_kwargs,
      _add_vulnerable_and_deprecated_status_to_kwargs, _add_region_to_kwargs,
      _add_sagemaker_session_to_kwargs, _add_model_name_to_kwargs,
      _add_instance_type_to_kwargs, _add_image_uri_to_kwargs, _add_model_data_to_kwargs,
      _add_source_dir_to_kwargs, _add_entry_point_to_kwargs, _add_env_to_kwargs,
      _add_predictor_cls_to_kwargs, _add_extra_model_kwargs, _add_role_to_kwargs,
      _add_model_package_arn_to_kwargs, _add_resources_to_kwargs,
      py_or_str, py_or_opt_str, py_or_model_data, hv, hu, hv2, hu2, apply_ite,
      foldl_set_init_instance_type, foldl_set_init_image_uri_some]

/-- C1 (amended) witness at a concrete call with truthy explicit values. -/
theorem explicit_truthy_instance_type_and_image_uri_retained_witness :
    (get_init_kwargs test_env c1_truthy_args).instance_type = some "ml.p3.2xlarge"
    ∧ (get_init_kwargs test_env c1_truthy_args).image_uri = some "custom-image"
    ∧ get_init_kwargs c1_alt_env c1_truthy_args
      = get_init_kwargs test_env c1_truthy_args :=
  ⟨(explicit_truthy_instance_type_and_image_uri_retained test_env alt_instance_type_lookup
      alt_image_uri_lookup c1_truthy_args "ml.p3.2xlarge" "custom-image"
      rfl (by decide) rfl (by decide)).1,
   (explicit_truthy_instance_type_and_image_uri_retained test_env alt_instance_type_lookup
      alt_image_uri_lookup c1_truthy_args "ml.p3.2xlarge" "custom-image"
      rfl (by decide) rfl (by decide)).2.1,
   (explicit_truthy_instance_type_and_image_uri_retained test_env alt_instance_type_lookup
      alt_image_uri_lookup c1_truthy_args "ml.p3.2xlarge" "custom-image"
      rfl (by decide) rfl (by decide)).2.2⟩

/-- C2 counterexample: the caller leaves `resources` unset, yet the record
returned by `get_init_kwargs` does not carry the value of
`resource_requirements.retrieve_default`: the catalog extra init-kwargs bundle
supplies a `resources` entry, the reflection merge runs before
`_add_resources_to_kwargs` and fills the unset field first. -/
theorem unset_resources_filled_from_init_bundle_not_lookup :
    (get_init_kwargs c2_bundle_env plain_init_args).resources = some ⟨"bundle-resources"⟩
    ∧ (get_init_kwargs c2_bundle_env plain_init_args).resources
      ≠ some (c2_bundle_env.resource_requirements_retrieve_default (some "us-west-2") "mid"
          (some "*") (some false) (some false) (some test_session)) := by
  decide

/-- C2 (amended): a field left unset by the caller comes back from the pipeline
equal to the collaborator default-lookup value at the resolved model id,
version and region: unconditionally for `image_uri`, which is filled before the
extra-kwargs merge; and for `resources`, which is filled after it, provided the
catalog extra init-kwargs bundle supplies no `resources` entry. -/
theorem pipeline_fills_unset_image_uri_and_resources_from_lookup (E : Env)
    (a : GetInitKwargsArgs) :
    (a.image_uri = none →
      (get_init_kwargs E a).image_uri = some (E.image_uris_retrieve
        (some (py_or_str a.region E.default_region_name)) a.model_id
        (some (py_or_str a.model_version "*"))
        (some (py_or_str a.instance_type (E.instance_types_retrieve_default
          (some (py_or_str a.region E.default_region_name)) a.model_id
          (some (py_or_str a.model_version "*"))
          (some (py_or_bool a.tolerate_deprecated_model false))
          (some (py_or_bool a.tolerate_vulnerable_model false))
          (some (a.sagemaker_session.getD E.default_sagemaker_session))
          a.training_instance_type)))
        (some (py_or_bool a.tolerate_deprecated_model false))
        (some (py_or_bool a.tolerate_vulnerable_model false))
        (some (a.sagemaker_session.getD E.default_sagemaker_session))))
    ∧ (a.resources = none →
      (∀ mid mv reg td tv s, ∀ e ∈ E.retrieve_model_init_kwargs mid mv reg td tv s,
        init_entry_field e ≠ InitField.resources) →
      (get_init_kwargs E a).resources = some (E.resource_requirements_retrieve_default
        (some (py_or_str a.region E.default_region_name)) a.model_id
        (some (py_or_str a.model_version "*"))
        (some (py_or_bool a.tolerate_deprecated_model false))
        (some (py_or_bool a.tolerate_vulnerable_model false))
        (some (a.sagemaker_session.getD E.default_sagemaker_session)))) := by
  constructor
  · intro himg
    simp [get_init_kwargs, _add_model_version_to_kwargs,
      _add_vulnerable_and_deprecated_status_to_kwargs, _add_region_to_kwargs,
      _add_sagemaker_session_to_kwargs, _add_model_name_to_kwargs,
      _add_instance_type_to_kwargs, _add_image_uri_to_kwargs, _add_model_data_to_kwargs,
      _add_source_dir_to_kwargs, _add_entry_point_to_kwargs, _add_env_to_kwargs,
      _add_predictor_cls_to_kwargs, _add_extra_model_kwargs, _add_role_to_kwargs,
      _add_model_package_arn_to_kwargs, _add_resources_to_kwargs,
      himg, py_or_str_none, apply_ite, foldl_set_init_image_uri_some]
  · intro hres hbundle
    have hm : ∀ mid mv reg td tv s (k : JumpStartModelInitKwargs),
        ((E.retrieve_model_init_kwargs mid mv reg td tv s).foldl
          set_init_field_if_none k).resources = k.resources :=
      fun mid mv reg td tv s k => foldl_set_init_resources_clean _
        (hbundle mid mv reg td tv s) k
    simp [get_init_kwargs, _add_model_version_to_kwargs,
      _add_vulnerable_and_deprecated_status_to_kwargs, _add_region_to_kwargs,
      _add_sagemaker_session_to_kwargs, _add_model_name_to_kwargs,
      _add_instance_type_to_kwargs, _add_image_uri_to_kwargs, _add_model_data_to_kwargs,
      _add_source_dir_to_kwargs, _add_entry_point_to_kwargs, _add_env_to_kwargs,
      _add_predictor_cls_to_kwargs, _add_extra_model_kwargs, _add_role_to_kwargs,
      _add_model_package_arn_to_kwargs, _add_resources_to_kwargs,
      hres, apply_ite, hm, foldl_set_init_model_id, foldl_set_init_model_version,
      foldl_set_init_region, foldl_set_init_tolerate_deprecated,
      foldl_set_init_tolerate_vulnerable, foldl_set_init_sagemaker_session]

/-- C2 (amended) witness: with an empty bundle and everything optional unset,
the returned image uri and resources are exactly the lookup defaults. -/
theorem pipeline_fills_unset_image_uri_and_resources_from_lookup_witness :
    (get_init_kwargs test_env plain_init_args).image_uri
      = some "763104351884.dkr.ecr.us-west-2.amazonaws.com/img:latest"
    ∧ (get_init_kwargs test_env plain_init_args).resources = some ⟨"default-resources"⟩ :=
  ⟨(pipeline_fills_unset_image_uri_and_resources_from_lookup test_env plain_init_args).1 rfl,
   (pipeline_fills_unset_image_uri_and_resources_from_lookup test_env plain_init_args).2 rfl
     (fun _ _ _ _ _ _ _ he => nomatch he)⟩

/-- C3: whenever the resolved model-data value (caller value or catalog
default) is a string starting with `"s3://"` and ending with `"/"`, the stored
`model_data` is exactly the structured descriptor with that uri, data type
`"S3Prefix"` and compression type `"None"`; any resolved value not matching the
pattern is stored unchanged. -/
theorem model_data_s3_prefix_descriptor_rewrite (E : Env) (k : JumpStartModelInitKwargs) :
    (∀ s : String,
      py_or_model_data k.model_data (E.model_uris_retrieve k.model_id k.model_version k.region
        k.tolerate_deprecated_model k.tolerate_vulnerable_model k.sagemaker_session
        k.instance_type) = ModelData.str s →
      (str_startsWith s "s3://" = true → str_endsWith s "/" = true →
        (_add_model_data_to_kwargs E k).model_data
          = some (ModelData.s3_data_source ⟨s, "S3Prefix", "None"⟩))
      ∧ (¬(str_startsWith s "s3://" = true ∧ str_endsWith s "/" = true) →
        (_add_model_data_to_kwargs E k).model_data = some (ModelData.str s)))
    ∧ (∀ d : S3DataSourceSpec,
      py_or_model_data k.model_data (E.model_uris_retrieve k.model_id k.model_version k.region
        k.tolerate_deprecated_model k.tolerate_vulnerable_model k.sagemaker_session
        k.instance_type) = ModelData.s3_data_source d →
      (_add_model_data_to_kwargs E k).model_data = some (ModelData.s3_data_source d)) := by
  constructor
  · intro s hs
    constructor
    · intro h1 h2
      simp [_add_model_data_to_kwargs, hs, h1, h2]
    · intro hn
      have hfalse : (str_startsWith s "s3://" && str_endsWith s "/") = false := by
        cases hA : str_startsWith s "s3://" <;> cases hB : str_endsWith s "/" <;> simp_all
      simp [_add_model_data_to_kwargs, hs, hfalse]
  · intro d hd
    simp [_add_model_data_to_kwargs, hd]

/-- C3 witness: an S3 prefix string is rewritten to the descriptor; a tarball
uri without a trailing slash is left as is. -/
theorem model_data_s3_prefix_descriptor_rewrite_witness :
    (_add_model_data_to_kwargs test_env c3_prefix_kwargs).model_data
      = some (ModelData.s3_data_source ⟨"s3://bucket/prefix/", "S3Prefix", "None"⟩)
    ∧ (_add_model_data_to_kwargs test_env c3_plain_kwargs).model_data
      = some (ModelData.str "s3://bucket/model.tar.gz") :=
  ⟨((model_data_s3_prefix_descriptor_rewrite test_env c3_prefix_kwargs).1
      "s3://bucket/prefix/" rfl).1 (by decide) (by decide),
   ((model_data_s3_prefix_descriptor_rewrite test_env c3_plain_kwargs).1
      "s3://bucket/model.tar.gz" rfl).2 (by decide)⟩

/-- C4 counterexample: the catalog reports no inference-script support and the
caller leaves `entry_point` unset, yet the returned record's `entry_point` is
not `None`: the catalog extra init-kwargs bundle supplies an `entry_point`
value and the reflection merge fills the unset field with it. -/
theorem unset_entry_point_filled_from_extra_kwargs_bundle :
    (get_init_kwargs bundle_env plain_init_args).entry_point = some "bundle_inference.py"
    ∧ (get_init_kwargs bundle_env plain_init_args).entry_point ≠ none
    ∧ bundle_env.model_supports_inference_script_uri "mid" (some "*") (some "us-west-2")
        (some false) (some false) (some test_session) = false := by
  decide

/-- C4 (amended): when the caller leaves `entry_point` and `source_dir` unset
and the catalog extra init-kwargs bundle supplies neither field, then: if the
catalog reports no inference-script support both fields remain unset regardless
of catalog script defaults, and if it reports support, `entry_point` defaults
to the standard inference entry-point script name and `source_dir` to the
retrieved script uri. -/
theorem script_mode_gating_of_entry_point_and_source_dir (E : Env) (a : GetInitKwargsArgs)
    (hep : a.entry_point = none) (hsd : a.source_dir = none)
    (hbundle : ∀ mid mv reg td tv s,
      ∀ e ∈ E.retrieve_model_init_kwargs mid mv reg td tv s,
      init_entry_field e ≠ InitField.entry_point ∧
      init_entry_field e ≠ InitField.source_dir) :
    ((∀ mid mv reg td tv s,
        E.model_supports_inference_script_uri mid mv reg td tv s = false) →
      (get_init_kwargs E a).entry_point = none ∧ (get_init_kwargs E a).source_dir = none)
    ∧ ((∀ mid mv reg td tv s,
        E.model_supports_inference_script_uri mid mv reg td tv s = true) →
      (get_init_kwargs E a).entry_point = some E.inference_entry_point_script_name
      ∧ (get_init_kwargs E a).source_dir = some (E.script_uris_retrieve a.model_id
          (some (py_or_str a.model_version "*"))
          (some (py_or_str a.region E.default_region_name))
          (some (py_or_bool a.tolerate_deprecated_model false))
          (some (py_or_bool a.tolerate_vulnerable_model false))
          (some (a.sagemaker_session.getD E.default_sagemaker_session)))) := by
  have hm1 : ∀ mid mv reg td tv s (k : JumpStartModelInitKwargs),
      ((E.retrieve_model_init_kwargs mid mv reg td tv s).foldl
        set_init_field_if_none k).entry_point = k.entry_point :=
    fun mid mv reg td tv s k => foldl_set_init_entry_point_clean _
      (fun e he => (hbundle mid mv reg td tv s e he).1) k
  have hm2 : ∀ mid mv reg td tv s (k : JumpStartModelInitKwargs),
      ((E.retrieve_model_init_kwargs mid mv reg td tv s).foldl
        set_init_field_if_none k).source_dir = k.source_dir :=
    fun mid mv reg td tv s k => foldl_set_init_source_dir_clean _
      (fun e he => (hbundle mid mv reg td tv s e he).2) k
  constructor
  · intro hsup
    constructor <;>
      simp [get_init_kwargs, _add_model_version_to_kwargs,
        _add_vulnerable_and_deprecated_status_to_kwargs, _add_region_to_kwargs,
        _add_sagemaker_session_to_kwargs, _add_model_name_to_kwargs,
        _add_instance_type_to_kwargs, _add_image_uri_to_kwargs, _add_model_data_to_kwargs,
        _add_source_dir_to_kwargs, _add_entry_point_to_kwargs, _add_env_to_kwargs,
        _add_predictor_cls_to_kwargs, _add_extra_model_kwargs, _add_role_to_kwargs,
        _add_model_package_arn_to_kwargs, _add_resources_to_kwargs,
        hep, hsd, hsup, apply_ite, hm1, hm2]
  · intro hsup
    constructor <;>
      simp [get_init_kwargs, _add_model_version_to_kwargs,
        _add_vulnerable_and_deprecated_status_to_kwargs, _add_region_to_kwargs,
        _add_sagemaker_session_to_kwargs, _add_model_name_to_kwargs,
        _add_instance_type_to_kwargs, _add_image_uri_to_kwargs, _add_model_data_to_kwargs,
        _add_source_dir_to_kwargs, _add_entry_point_to_kwargs, _add_env_to_kwargs,
        _add_predictor_cls_to_kwargs, _add_extra_model_kwargs, _add_role_to_kwargs,
        _add_model_package_arn_to_kwargs, _add_resources_to_kwargs,
        hep, hsd, hsup, apply_ite, hm1, hm2, py_or_opt_str_none]

/-- C4 (amended) witness: with an empty bundle, a no-support catalog leaves
both fields unset and a supporting catalog fills both defaults. -/
theorem script_mode_gating_of_entry_point_and_source_dir_witness :
    (get_init_kwargs test_env plain_init_args).entry_point = none
    ∧ (get_init_kwargs test_env plain_init_args).source_dir = none
    ∧ (get_init_kwargs script_env plain_init_args).entry_point = some "inference.py"
    ∧ (get_init_kwargs script_env plain_init_args).source_dir
      = some "s3://jumpstart-cache/scripts/sourcedir.tar.gz" :=
  ⟨((script_mode_gating_of_entry_point_and_source_dir test_env plain_init_args rfl rfl
      (fun _ _ _ _ _ _ _ he => nomatch he)).1 (fun _ _ _ _ _ _ => rfl)).1,
   ((script_mode_gating_of_entry_point_and_source_dir test_env plain_init_args rfl rfl
      (fun _ _ _ _ _ _ _ he => nomatch he)).1 (fun _ _ _ _ _ _ => rfl)).2,
   ((script_mode_gating_of_entry_point_and_source_dir script_env plain_init_args rfl rfl
      (fun _ _ _ _ _ _ _ he => nomatch he)).2 (fun _ _ _ _ _ _ => rfl)).1,
   ((script_mode_gating_of_entry_point_and_source_dir script_env plain_init_args rfl rfl
      (fun _ _ _ _ _ _ _ he => nomatch he)).2 (fun _ _ _ _ _ _ => rfl)).2⟩

/-- C5: the merged environment maps every key of the user map to the user's
value and every key present only in the catalog map to the catalog's value,
and the resolved `env` field is never an empty map (an empty merge resolves to
unset). -/
theorem env_merge_user_precedence_and_empty_unset (E : Env) (k : JumpStartModelInitKwargs) :
    (∀ key v, dict_lookup (k.env.getD []) key = some v →
      dict_lookup (((_add_env_to_kwargs E k).env).getD []) key = some v)
    ∧ (∀ key v, dict_lookup (k.env.getD []) key = none →
      dict_lookup (E.environment_variables_retrieve_default k.model_id k.model_version
        k.region k.tolerate_deprecated_model k.tolerate_vulnerable_model k.sagemaker_session
        k.instance_type) key = some v →
      dict_lookup (((_add_env_to_kwargs E k).env).getD []) key = some v)
    ∧ (_add_env_to_kwargs E k).env ≠ some [] := by
  have hmerge := fun key => env_update_foldl_lookup
    (E.environment_variables_retrieve_default k.model_id k.model_version k.region
      k.tolerate_deprecated_model k.tolerate_vulnerable_model k.sagemaker_session
      k.instance_type) (k.env.getD []) key
  by_cases hm : (E.environment_variables_retrieve_default k.model_id k.model_version k.region
      k.tolerate_deprecated_model k.tolerate_vulnerable_model k.sagemaker_session
      k.instance_type).foldl (fun acc kv => update_dict_if_key_not_present acc kv.1 kv.2)
      (k.env.getD []) = []
  · refine ⟨?_, ?_, ?_⟩
    · intro key v h
      have := hmerge key
      rw [hm, h] at this
      simp [dict_lookup, opt_or] at this
    · intro key v h1 h2
      have := hmerge key
      rw [hm, h1, h2] at this
      simp [dict_lookup, opt_or] at this
    · simp [_add_env_to_kwargs, hm]
  · refine ⟨?_, ?_, ?_⟩
    · intro key v h
      simp only [_add_env_to_kwargs, if_neg hm, Option.getD_some]
      rw [hmerge key, h]
      rfl
    · intro key v h1 h2
      simp only [_add_env_to_kwargs, if_neg hm, Option.getD_some]
      rw [hmerge key, h1, h2]
      rfl
    · simp only [_add_env_to_kwargs, if_neg hm]
      intro hcontra
      injection hcontra with hc
      exact hm hc

/-- C5 witness: user `{A: 1}` with catalog `{A: 2, B: 3}` resolves to
`{A: 1, B: 3}`, which is not the empty map. -/
theorem env_merge_user_precedence_and_empty_unset_witness :
    dict_lookup (((_add_env_to_kwargs test_env c5_kwargs).env).getD []) "A" = some "1"
    ∧ dict_lookup (((_add_env_to_kwargs test_env c5_kwargs).env).getD []) "B" = some "3"
    ∧ (_add_env_to_kwargs test_env c5_kwargs).env ≠ some [] :=
  ⟨(env_merge_user_precedence_and_empty_unset test_env c5_kwargs).1 "A" "1" (by decide),
   (env_merge_user_precedence_and_empty_unset test_env c5_kwargs).2.1 "B" "3"
     (by decide) (by decide),
   (env_merge_user_precedence_and_empty_unset test_env c5_kwargs).2.2⟩

/-- C6: `get_default_predictor` errors exactly when the predictor is not of the
base predictor class; on the base class it returns the same predictor with
serializer, deserializer, accept and content type set to the catalog defaults
for the given model id, version and region. -/
theorem get_default_predictor_base_class_check (E : Env) (p : Predictor)
    (model_id model_version region : String)
    (tolerate_vulnerable_model tolerate_deprecated_model : Bool)
    (sagemaker_session : Session) :
    (p.cls ≠ PredictorClass.predictor ↔
      ∃ msg, get_default_predictor E p model_id model_version region
        tolerate_vulnerable_model tolerate_deprecated_model sagemaker_session
        = Except.error msg)
    ∧ (p.cls = PredictorClass.predictor →
      get_default_predictor E p model_id model_version region
        tolerate_vulnerable_model tolerate_deprecated_model sagemaker_session
        = Except.ok { p with
            serializer := some (E.serializers_retrieve_default model_id model_version region
              tolerate_deprecated_model tolerate_vulnerable_model sagemaker_session)
            deserializer := some (E.deserializers_retrieve_default model_id model_version region
              tolerate_deprecated_model tolerate_vulnerable_model sagemaker_session)
            accept := some (E.accept_types_retrieve_default model_id model_version region
              tolerate_deprecated_model tolerate_vulnerable_model sagemaker_session)
            content_type := some (E.content_types_retrieve_default model_id model_version region
              tolerate_deprecated_model tolerate_vulnerable_model sagemaker_session) }) := by
  constructor
  · constructor
    · intro h
      refine ⟨"Can only get default predictor from base Predictor class. Using Predictor class "
        ++ p.cls.class_name ++ ".", ?_⟩
      simp [get_default_predictor, h]
    · rintro ⟨msg, hmsg⟩ h
      simp [get_default_predictor, h] at hmsg
  · intro h
    simp [get_default_predictor, h]

/-- C6 witness: a base-class predictor is converted to the catalog defaults and
a subclass predictor is rejected. -/
theorem get_default_predictor_base_class_check_witness :
    get_default_predictor test_env base_predictor "mid" "1.0.0" "us-west-2" false false
      test_session
      = Except.ok { base_predictor with
          serializer := some "IdentitySerializer"
          deserializer := some "JSONDeserializer"
          accept := some "application/json"
          content_type := some "application/x-image" }
    ∧ ∃ msg, get_default_predictor test_env custom_predictor "mid" "1.0.0" "us-west-2" false
        false test_session = Except.error msg :=
  ⟨(get_default_predictor_base_class_check test_env base_predictor "mid" "1.0.0" "us-west-2"
      false false test_session).2 rfl,
   (get_default_predictor_base_class_check test_env custom_predictor "mid" "1.0.0" "us-west-2"
      false false test_session).1.mp (by decide)⟩

/-- C7 counterexample: the tag policy flag is disabled and the caller left
`tags` unset, yet the returned record's tags differ from the caller's value:
the catalog deploy-kwargs bundle supplies a `tags` entry and the reflection
merge fills the unset field with it. -/
theorem tags_filled_from_deploy_bundle_with_flag_disabled :
    bundle_env.default_sagemaker_session.settings.include_jumpstart_tags = false
    ∧ (get_deploy_kwargs bundle_env plain_deploy_args).tags
      = some [("bundle-key", "bundle-value")]
    ∧ (get_deploy_kwargs bundle_env plain_deploy_args).tags ≠ plain_deploy_args.tags := by
  decide

/-- C7 (amended): catalog-identifying tags are appended only when the session
policy flag is enabled; when the flag is disabled and the catalog deploy-kwargs
bundle supplies no `tags` entry, the returned record's tags equal the
caller-supplied tags unchanged. -/
theorem jumpstart_tags_only_when_flag_enabled (E : Env) (a : GetDeployKwargsArgs)
    (hflag : (a.sagemaker_session.getD
      E.default_sagemaker_session).settings.include_jumpstart_tags = false)
    (hbundle : ∀ mid mv it reg td tv s,
      ∀ e ∈ E.retrieve_model_deploy_kwargs mid mv it reg td tv s,
      deploy_entry_field e ≠ DeployField.tags) :
    (get_deploy_kwargs E a).tags = a.tags := by
  have hm : ∀ mid mv it reg td tv s (k : JumpStartModelDeployKwargs),
      ((E.retrieve_model_deploy_kwargs mid mv it reg td tv s).foldl
        set_deploy_field_if_none k).tags = k.tags :=
    fun mid mv it reg td tv s k => foldl_set_deploy_tags_clean _
      (hbundle mid mv it reg td tv s) k
  simp [get_deploy_kwargs, _add_sagemaker_session_to_deploy_kwargs,
    _add_model_version_to_deploy_kwargs, _add_endpoint_name_to_kwargs,
    _add_instance_type_to_deploy_kwargs, _add_deploy_extra_kwargs, _add_tags_to_kwargs,
    _add_resources_to_deploy_kwargs, hflag, hm, foldl_set_deploy_sagemaker_session,
    apply_ite]

/-- C7 (amended) witness: with an empty bundle and the flag disabled, the
caller's tags come back unchanged. -/
theorem jumpstart_tags_only_when_flag_enabled_witness :
    (get_deploy_kwargs test_env c7_tagged_args).tags = some [("user-key", "user-value")] :=
  jumpstart_tags_only_when_flag_enabled test_env c7_tagged_args rfl
    (fun _ _ _ _ _ _ _ _ he => nomatch he)

/-- C8: the catalog extra init-kwargs merge and the deploy-kwargs merge set a
field to the bundle's value only when the field is unset, and leave every field
that already holds a non-None value unchanged. -/
theorem extra_kwargs_merges_fill_only_if_unset :
    (∀ (E : Env) (k : JumpStartModelInitKwargs) (f : InitField),
      (init_get k f).isSome = true →
      init_get (_add_extra_model_kwargs E k) f = init_get k f)
    ∧ (∀ (e : InitKwargEntry) (k : JumpStartModelInitKwargs),
      init_get k (init_entry_field e) = none →
      init_get (set_init_field_if_none k e) (init_entry_field e) = some (init_entry_val e))
    ∧ (∀ (E : Env) (k : JumpStartModelDeployKwargs) (f : DeployField),
      (deploy_get k f).isSome = true →
      deploy_get (_add_deploy_extra_kwargs E k) f = deploy_get k f)
    ∧ (∀ (e : DeployKwargEntry) (k : JumpStartModelDeployKwargs),
      deploy_get k (deploy_entry_field e) = none →
      deploy_get (set_deploy_field_if_none k e) (deploy_entry_field e)
        = some (deploy_entry_val e)) :=
  ⟨fun _ k f h => foldl_set_init_preserves_some _ k f h,
   set_init_field_if_none_sets,
   fun _ k f h => foldl_set_deploy_preserves_some _ k f h,
   set_deploy_field_if_none_sets⟩

/-- C8 witness: an occupied field survives a bundle that targets it, and an
unset field is set to the bundle's value. -/
theorem extra_kwargs_merges_fill_only_if_unset_witness :
    init_get (_add_extra_model_kwargs bundle_env c8_init_kwargs) InitField.image_uri
      = init_get c8_init_kwargs InitField.image_uri
    ∧ init_get (set_init_field_if_none c8_init_kwargs (InitKwargEntry.entry_point "script.py"))
        InitField.entry_point = some (FieldVal.str "script.py")
    ∧ deploy_get (_add_deploy_extra_kwargs bundle_env c8_deploy_kwargs) DeployField.kms_key
      = deploy_get c8_deploy_kwargs DeployField.kms_key
    ∧ deploy_get (set_deploy_field_if_none c8_deploy_kwargs (DeployKwargEntry.wait true))
        DeployField.wait = some (FieldVal.bool true) :=
  ⟨extra_kwargs_merges_fill_only_if_unset.1 bundle_env c8_init_kwargs InitField.image_uri
     (by decide),
   extra_kwargs_merges_fill_only_if_unset.2.1 (InitKwargEntry.entry_point "script.py")
     c8_init_kwargs (by decide),
   extra_kwargs_merges_fill_only_if_unset.2.2.1 bundle_env c8_deploy_kwargs
     DeployField.kms_key (by decide),
   extra_kwargs_merges_fill_only_if_unset.2.2.2 (DeployKwargEntry.wait true)
     c8_deploy_kwargs (by decide)⟩

/-- C9 counterexample: the caller explicitly passes an S3-prefix model-data
string but also builds the model from an estimator; the model-data step is
skipped, so the returned record keeps the caller's plain string instead of the
structured descriptor the claim requires. -/
theorem estimator_model_data_s3_uri_not_rewritten :
    (get_init_kwargs test_env c9_estimator_args).model_data
      = some (ModelData.str "s3://bucket/prefix/")
    ∧ (get_init_kwargs test_env c9_estimator_args).model_data
      ≠ some (ModelData.s3_data_source ⟨"s3://bucket/prefix/", "S3Prefix", "None"⟩) := by
  decide

/-- C9 (amended): for every call with `model_from_estimator` false (its
default), a caller-supplied model-data string starting with `"s3://"` and
ending with `"/"` is rewritten into the structured descriptor in the returned
record. -/
theorem caller_supplied_s3_uri_model_data_rewritten (E : Env) (a : GetInitKwargsArgs)
    (s : String) (hest : a.model_from_estimator = false)
    (hmd : a.model_data = some (ModelData.str s))
    (h1 : str_startsWith s "s3://" = true) (h2 : str_endsWith s "/" = true) :
    (get_init_kwargs E a).model_data
      = some (ModelData.s3_data_source ⟨s, "S3Prefix", "None"⟩) := by
  have hs : s ≠ "" := by
    intro he
    subst he
    simp [str_startsWith, List.isPrefixOf] at h1
  simp [get_init_kwargs, _add_model_version_to_kwargs,
    _add_vulnerable_and_deprecated_status_to_kwargs, _add_region_to_kwargs,
    _add_sagemaker_session_to_kwargs, _add_model_name_to_kwargs,
    _add_instance_type_to_kwargs, _add_image_uri_to_kwargs, _add_model_data_to_kwargs,
    _add_source_dir_to_kwargs, _add_entry_point_to_kwargs, _add_env_to_kwargs,
    _add_predictor_cls_to_kwargs, _add_extra_model_kwargs, _add_role_to_kwargs,
    _add_model_package_arn_to_kwargs, _add_resources_to_kwargs,
    py_or_str, py_or_opt_str, py_or_model_data, hest, hmd, hs, h1, h2,
    foldl_set_init_model_data_some]

/-- C9 (amended) witness at the concrete prefix string. -/
theorem caller_supplied_s3_uri_model_data_rewritten_witness :
    (get_init_kwargs test_env c9_plain_args).model_data
      = some (ModelData.s3_data_source ⟨"s3://bucket/prefix/", "S3Prefix", "None"⟩) :=
  caller_supplied_s3_uri_model_data_rewritten test_env c9_plain_args "s3://bucket/prefix/"
    rfl rfl (by decide) (by decide)

/-- C10 counterexample: the endpoint type is not inference-component-based and
the caller left `resources` unset, yet the returned record's `resources` differ
from the caller's value: the catalog deploy-kwargs bundle supplies a
`resources` entry and the reflection merge fills the unset field with it. -/
theorem resources_filled_from_deploy_bundle_without_ic_endpoint :
    plain_deploy_args.endpoint_type ≠ some EndpointType.inference_component_based
    ∧ (get_deploy_kwargs bundle_env plain_deploy_args).resources
      = some ⟨"bundle-resources"⟩
    ∧ (get_deploy_kwargs bundle_env plain_deploy_args).resources
      ≠ plain_deploy_args.resources := by
  decide

/-- C10 (amended): for every call whose endpoint type is not the
inference-component-based one and whose catalog deploy-kwargs bundle supplies
none of `resources`, `endpoint_type`, `managed_instance_scaling`, the returned
record's resources equal the caller-supplied value and its endpoint type and
managed instance scaling are left unset. -/
theorem ic_endpoint_gating_of_resources_and_scaling (E : Env) (a : GetDeployKwargsArgs)
    (hne : a.endpoint_type ≠ some EndpointType.inference_component_based)
    (hbundle : ∀ mid mv it reg td tv s,
      ∀ e ∈ E.retrieve_model_deploy_kwargs mid mv it reg td tv s,
      deploy_entry_field e ≠ DeployField.resources ∧
      deploy_entry_field e ≠ DeployField.endpoint_type ∧
      deploy_entry_field e ≠ DeployField.managed_instance_scaling) :
    (get_deploy_kwargs E a).resources = a.resources
    ∧ (get_deploy_kwargs E a).endpoint_type = none
    ∧ (get_deploy_kwargs E a).managed_instance_scaling = none := by
  have hm1 : ∀ mid mv it reg td tv s (k : JumpStartModelDeployKwargs),
      ((E.retrieve_model_deploy_kwargs mid mv it reg td tv s).foldl
        set_deploy_field_if_none k).resources = k.resources :=
    fun mid mv it reg td tv s k => foldl_set_deploy_resources_clean _
      (fun e he => (hbundle mid mv it reg td tv s e he).1) k
  have hm2 : ∀ mid mv it reg td tv s (k : JumpStartModelDeployKwargs),
      ((E.retrieve_model_deploy_kwargs mid mv it reg td tv s).foldl
        set_deploy_field_if_none k).endpoint_type = k.endpoint_type :=
    fun mid mv it reg td tv s k => foldl_set_deploy_endpoint_type_clean _
      (fun e he => (hbundle mid mv it reg td tv s e he).2.1) k
  have hm3 : ∀ mid mv it reg td tv s (k : JumpStartModelDeployKwargs),
      ((E.retrieve_model_deploy_kwargs mid mv it reg td tv s).foldl
        set_deploy_field_if_none k).managed_instance_scaling = k.managed_instance_scaling :=
    fun mid mv it reg td tv s k => foldl_set_deploy_managed_scaling_clean _
      (fun e he => (hbundle mid mv it reg td tv s e he).2.2) k
  refine ⟨?_, ?_, ?_⟩ <;>
    simp [get_deploy_kwargs, _add_sagemaker_session_to_deploy_kwargs,
      _add_model_version_to_deploy_kwargs, _add_endpoint_name_to_kwargs,
      _add_instance_type_to_deploy_kwargs, _add_deploy_extra_kwargs, _add_tags_to_kwargs,
      _add_resources_to_deploy_kwargs, hne, hm1, hm2, hm3, apply_ite]

/-- C10 (amended) witness: with an empty bundle and a model-based endpoint
type, caller resources survive and the gated fields stay unset. -/
theorem ic_endpoint_gating_of_resources_and_scaling_witness :
    (get_deploy_kwargs test_env c10_user_args).resources = some ⟨"user-resources"⟩
    ∧ (get_deploy_kwargs test_env c10_user_args).endpoint_type = none
    ∧ (get_deploy_kwargs test_env c10_user_args).managed_instance_scaling = none :=
  ⟨(ic_endpoint_gating_of_resources_and_scaling test_env c10_user_args (by decide)
      (fun _ _ _ _ _ _ _ _ he => nomatch he)).1,
   (ic_endpoint_gating_of_resources_and_scaling test_env c10_user_args (by decide)
      (fun _ _ _ _ _ _ _ _ he => nomatch he)).2.1,
   (ic_endpoint_gating_of_resources_and_scaling test_env c10_user_args (by decide)
      (fun _ _ _ _ _ _ _ _ he => nomatch he)).2.2⟩
